import Mathlib

/-!
Verification of the RealmForge scene-composition engine.

This file is a shallow embedding, in Lean 4, of the procedural
scene-generation subsystem of the repository: the template manager
(inheritance merge, parameter substitution, pattern application), the
animation system (sequence / chain construction), the visualization
service's quality-tier table, and the scene generator's spatial
placement algorithms (wall / pillar layout and Poisson-disk moss
scatter).

Modelling conventions:
  * Python JSON-like values are the inductive type Value; Python dicts
    are association lists (List (String × Value)) whose lookup takes
    the first matching key, matching dict semantics for the unique-key
    dicts the code builds.
  * Python floats are modelled as exact rationals (ℚ).  Where the code
    computes a real square root the embedding either abstracts the
    primitive as a function parameter (wall layout) or replaces a
    comparison sqrt d < r by the exact equivalent d < r^2 (Poisson
    scatter).  The constant radius / sqrt(2) is embedded as the exact
    IEEE-754 double the source computes.
  * The pydantic models the subsystem imports from
    models/visualization.py (ObjectDefinition, SceneDefinition) are
    embedded with their declared fields and validation: a missing
    required field or a value of the wrong type raises
    ValidationError, unknown keyword arguments are ignored, and
    reading an undeclared attribute raises AttributeError.  A name the
    generator uses without importing it (atan2) is embedded as an
    always-raising evaluation (NameError).  The object shape the call
    sites were written against (no id, dict-shaped geometry/material)
    is kept as a second, clearly separated spec-side model.
  * Randomness is modelled adversarially: every random draw of the
    source becomes an arbitrary input value, clamped exactly where the
    library call guarantees a range (random.uniform(a, b) returns a
    value inside [a, b]).  Theorems quantify over all draw sequences.
  * Python exceptions are modelled with Option / Except: a none /
    .error result marks the states in which the source raises.
  * Unbounded recursion (template inheritance) takes a fuel argument;
    a none result at every fuel level models divergence.
-/

/-- JSON-like runtime values (Python dict / list / scalars). -/
inductive Value where
  | vNull : Value
  | vBool : Bool → Value
  | vNum : ℚ → Value
  | vStr : String → Value
  | vList : List Value → Value
  | vDict : List (String × Value) → Value

open Value

mutual

def Value.beq : Value → Value → Bool
  | vNull, vNull => true
  | vBool a, vBool b => a == b
  | vNum a, vNum b => a == b
  | vStr a, vStr b => a == b
  | vList a, vList b => Value.beqList a b
  | vDict a, vDict b => Value.beqDict a b
  | _, _ => false

def Value.beqList : List Value → List Value → Bool
  | [], [] => true
  | x :: xs, y :: ys => Value.beq x y && Value.beqList xs ys
  | _, _ => false

def Value.beqDict : List (String × Value) → List (String × Value) → Bool
  | [], [] => true
  | (k1, v1) :: xs, (k2, v2) :: ys =>
    k1 == k2 && Value.beq v1 v2 && Value.beqDict xs ys
  | _, _ => false

end

mutual

theorem Value.beq_refl : (a : Value) → Value.beq a a = true
  | vNull => rfl
  | vBool a => by simp [Value.beq]
  | vNum a => by simp [Value.beq]
  | vStr a => by simp [Value.beq]
  | vList a => by simp [Value.beq, Value.beqList_refl a]
  | vDict a => by simp [Value.beq, Value.beqDict_refl a]

theorem Value.beqList_refl : (l : List Value) → Value.beqList l l = true
  | [] => rfl
  | x :: xs => by
    simp [Value.beqList, Value.beq_refl x, Value.beqList_refl xs]

theorem Value.beqDict_refl :
    (l : List (String × Value)) → Value.beqDict l l = true
  | [] => rfl
  | (k, v) :: xs => by
    simp [Value.beqDict, Value.beq_refl v, Value.beqDict_refl xs]

end

mutual

theorem Value.eq_of_beq : (a b : Value) → Value.beq a b = true → a = b
  | vNull, vNull, _ => rfl
  | vBool a, vBool b, h => by simpa [Value.beq] using h
  | vNum a, vNum b, h => by simpa [Value.beq] using h
  | vStr a, vStr b, h => by simpa [Value.beq] using h
  | vList a, vList b, h => by
    simp only [Value.beq] at h
    exact congrArg vList (Value.eqList_of_beq a b h)
  | vDict a, vDict b, h => by
    simp only [Value.beq] at h
    exact congrArg vDict (Value.eqDict_of_beq a b h)
  | vNull, vBool _, h => by simp [Value.beq] at h
  | vNull, vNum _, h => by simp [Value.beq] at h
  | vNull, vStr _, h => by simp [Value.beq] at h
  | vNull, vList _, h => by simp [Value.beq] at h
  | vNull, vDict _, h => by simp [Value.beq] at h
  | vBool _, vNull, h => by simp [Value.beq] at h
  | vBool _, vNum _, h => by simp [Value.beq] at h
  | vBool _, vStr _, h => by simp [Value.beq] at h
  | vBool _, vList _, h => by simp [Value.beq] at h
  | vBool _, vDict _, h => by simp [Value.beq] at h
  | vNum _, vNull, h => by simp [Value.beq] at h
  | vNum _, vBool _, h => by simp [Value.beq] at h
  | vNum _, vStr _, h => by simp [Value.beq] at h
  | vNum _, vList _, h => by simp [Value.beq] at h
  | vNum _, vDict _, h => by simp [Value.beq] at h
  | vStr _, vNull, h => by simp [Value.beq] at h
  | vStr _, vBool _, h => by simp [Value.beq] at h
  | vStr _, vNum _, h => by simp [Value.beq] at h
  | vStr _, vList _, h => by simp [Value.beq] at h
  | vStr _, vDict _, h => by simp [Value.beq] at h
  | vList _, vNull, h => by simp [Value.beq] at h
  | vList _, vBool _, h => by simp [Value.beq] at h
  | vList _, vNum _, h => by simp [Value.beq] at h
  | vList _, vStr _, h => by simp [Value.beq] at h
  | vList _, vDict _, h => by simp [Value.beq] at h
  | vDict _, vNull, h => by simp [Value.beq] at h
  | vDict _, vBool _, h => by simp [Value.beq] at h
  | vDict _, vNum _, h => by simp [Value.beq] at h
  | vDict _, vStr _, h => by simp [Value.beq] at h
  | vDict _, vList _, h => by simp [Value.beq] at h

theorem Value.eqList_of_beq :
    (a b : List Value) → Value.beqList a b = true → a = b
  | [], [], _ => rfl
  | x :: xs, y :: ys, h => by
    simp only [Value.beqList, Bool.and_eq_true] at h
    rw [Value.eq_of_beq x y h.1, Value.eqList_of_beq xs ys h.2]
  | [], _ :: _, h => by simp [Value.beqList] at h
  | _ :: _, [], h => by simp [Value.beqList] at h

theorem Value.eqDict_of_beq :
    (a b : List (String × Value)) → Value.beqDict a b = true → a = b
  | [], [], _ => rfl
  | (k1, v1) :: xs, (k2, v2) :: ys, h => by
    simp only [Value.beqDict, Bool.and_eq_true, beq_iff_eq] at h
    rw [h.1.1, Value.eq_of_beq v1 v2 h.1.2, Value.eqDict_of_beq xs ys h.2]
  | [], _ :: _, h => by simp [Value.beqDict] at h
  | _ :: _, [], h => by simp [Value.beqDict] at h

end

instance : DecidableEq Value := fun a b =>
  decidable_of_iff (Value.beq a b = true)
    ⟨Value.eq_of_beq a b, fun h => h ▸ Value.beq_refl a⟩

/-- Association-list update modelling Python dict assignment d[k] = v :
an existing key is overwritten in place, a new key is appended. -/
def dictSet (d : List (String × Value)) (k : String) (v : Value) :
    List (String × Value) :=
  match d with
  | [] => [(k, v)]
  | (k1, v1) :: rest =>
    if k1 = k then (k, v) :: rest else (k1, v1) :: dictSet rest k v

/-- Python truthiness of a Value (used by if tests in the source). -/
def pyTruthy : Value → Bool
  | vNull => false
  | vBool b => b
  | vNum q => q != 0
  | vStr s => !s.isEmpty
  | vList l => !l.isEmpty
  | vDict d => !d.isEmpty

/-- Python dict-merge expression x7b**b, **cx7d : keys of b in order,
values overridden by c where shared, then the keys only in c. -/
def pyDictMerge (b c : List (String × Value)) : List (String × Value) :=
  b.map (fun kv => (kv.1, (c.lookup kv.1).getD kv.2)) ++
    c.filter (fun kv => (b.lookup kv.1).isNone)

/-- Extract the entry list of a dict value; none models the TypeError /
AttributeError Python raises when a dict was required. -/
def asDict : Value → Option (List (String × Value))
  | vDict d => some d
  | _ => none

/-- Strict numeric read d[k] : none models KeyError / TypeError. -/
def getNum (d : List (String × Value)) (k : String) : Option ℚ :=
  match d.lookup k with
  | some (vNum q) => some q
  | _ => none

/-- Defaulted numeric read d.get(k, dflt) : a present non-numeric value
still poisons the arithmetic it feeds, hence none. -/
def getNumD (d : List (String × Value)) (k : String) (dflt : ℚ) : Option ℚ :=
  match d.lookup k with
  | none => some dflt
  | some (vNum q) => some q
  | some _ => none

/-! ## Template manager: SceneTemplate, inheritance merge, lookup -/

/-- The dataclass SceneTemplate of template_manager.py.  The source
field named variables is called vars here because that spelling is a
reserved word in Lean. -/
structure SceneTemplate where
  name : String
  base_template : Option String := none
  objects : Option (List Value) := none
  lights : Option (List Value) := none
  camera : Option (List (String × Value)) := none
  environment : Option (List (String × Value)) := none
  animations : Option (List Value) := none
  patterns : Option (List Value) := none
  vars : Option (List (String × Value)) := none
  deriving DecidableEq

/-- Python truthiness of an optional list field (None and [] are falsy). -/
def listTruthy : Option (List Value) → Bool
  | some (_ :: _) => true
  | _ => false

/-- Python truthiness of an optional dict field (None and x7bx7d are falsy). -/
def dictTruthy : Option (List (String × Value)) → Bool
  | some (_ :: _) => true
  | _ => false

/-- Python a or b for optional list fields. -/
def pyOrList (a b : Option (List Value)) : Option (List Value) :=
  if listTruthy a then a else b

/-- Python a or b for optional dict fields. -/
def pyOrDict (a b : Option (List (String × Value))) :
    Option (List (String × Value)) :=
  if dictTruthy a then a else b

/-- TemplateManager._merge_templates : override wins where its value is
truthy, variables are dict-merged with override precedence. -/
def mergeTemplates (base override : SceneTemplate) : SceneTemplate where
  name := override.name
  base_template := override.base_template
  objects := pyOrList override.objects base.objects
  lights := pyOrList override.lights base.lights
  camera := pyOrDict override.camera base.camera
  environment := pyOrDict override.environment base.environment
  animations := pyOrList override.animations base.animations
  patterns := pyOrList override.patterns base.patterns
  vars := some (pyDictMerge (base.vars.getD []) (override.vars.getD []))

/-- TemplateManager.get_template with fuel.  The source recurses on the
base-template name with no cycle guard; outer none models a recursion
that has not terminated within the given fuel, some none models the
Python None result, some (some t) a returned template. -/
def getTemplate : ℕ → List (String × SceneTemplate) → String →
    Option (Option SceneTemplate)
  | 0, _, _ => none
  | fuel + 1, store, name =>
    match store.lookup name with
    | none => some none
    | some t =>
      match t.base_template with
      | none => some (some t)
      | some bn =>
        if bn.isEmpty then some (some t)
        else
          match getTemplate fuel store bn with
          | none => none
          | some none => some (some t)
          | some (some b) => some (some (mergeTemplates b t))

/-! ## Template manager: parameter substitution -/

/- TemplateManager._substitute_parameters, split into the per-entry
value transformation (substVal) and the dict walk (substDict).  Note
the source substitutes dollar-strings only when they appear as dict
values; a list element is recursed into only when it is itself a dict,
so dollar-strings that are direct list elements stay literal. -/
/-- value.startswith("$") : the first character is the sentinel.
(String.startsWith itself does not reduce in the kernel, so the
character-level equivalent is used.) -/
def startsWithDollar (s : String) : Bool :=
  match s.data with
  | [] => false
  | c :: _ => c == '$'

/-- value[1:] : drop the sentinel character. -/
def dropSentinel (s : String) : String := String.mk (s.data.drop 1)

mutual

def substVal (params : List (String × Value)) : Value → Value
  | vStr s =>
    if startsWithDollar s then ((params.lookup (dropSentinel s)).getD (vStr s))
    else vStr s
  | vDict d => vDict (substDict params d)
  | vList l => vList (substList params l)
  | v => v

def substDict (params : List (String × Value)) :
    List (String × Value) → List (String × Value)
  | [] => []
  | (k, v) :: rest => (k, substVal params v) :: substDict params rest

def substList (params : List (String × Value)) : List Value → List Value
  | [] => []
  | vDict d :: rest => vDict (substDict params d) :: substList params rest
  | item :: rest => item :: substList params rest

end

/-! ## Template manager: transforms and pattern application -/

/-- Vector of three rationals (the Vector3 of the scene model). -/
structure Vec3 where
  x : ℚ
  y : ℚ
  z : ℚ
  deriving DecidableEq, Repr

/-- Squaring written as self-multiplication (a rational power through
the Monoid structure does not reduce in the kernel, multiplication
does). -/
def sqQ (a : ℚ) : ℚ := a * a

/-- A Vector3 as the dict of its components (the shape the pattern
dicts carry, and the field dict of a Vector3 model instance). -/
def vec3Dict (v : Vec3) : Value :=
  vDict [("x", vNum v.x), ("y", vNum v.y), ("z", vNum v.z)]

/-- One axis block of TemplateManager._apply_transform : read the
object's current vector for key (falling back to the per-key default
dict), read each transform component with its default, combine with
op, and write the key back; none models the KeyError / TypeError the
source raises on malformed data. -/
def transformStep (op : ℚ → ℚ → ℚ) (curDflt tDflt : ℚ)
    (objDef : List (String × Value)) (key : String) (tv : Value) :
    Option (List (String × Value)) := do
  let t ← asDict tv
  let cur ← asDict ((objDef.lookup key).getD
    (vDict [("x", vNum curDflt), ("y", vNum curDflt), ("z", vNum curDflt)]))
  let cx ← getNum cur "x"
  let cy ← getNum cur "y"
  let cz ← getNum cur "z"
  let tx ← getNumD t "x" tDflt
  let ty ← getNumD t "y" tDflt
  let tz ← getNumD t "z" tDflt
  some (dictSet objDef key
    (vDict [("x", vNum (op cx tx)), ("y", vNum (op cy ty)),
            ("z", vNum (op cz tz))]))

/-- TemplateManager._apply_transform : translate / rotate compose
additively (defaults 0), scale multiplicatively (defaults 1); each
block runs only when its key is present in the transform. -/
def applyTransform (objDef transform : List (String × Value)) :
    Option (List (String × Value)) := do
  let d1 ←
    match transform.lookup "position" with
    | none => some objDef
    | some tv => transformStep (fun a b => a + b) 0 0 objDef "position" tv
  let d2 ←
    match transform.lookup "rotation" with
    | none => some d1
    | some tv => transformStep (fun a b => a + b) 0 0 d1 "rotation" tv
  match transform.lookup "scale" with
  | none => some d2
  | some tv => transformStep (fun a b => a * b) 1 1 d2 "scale" tv

/-! ## Scene object model: the spec-side shape

Two object models coexist in this development.  The structure below is
the object shape of the spec's data model (ObjectDefinition of the
spec: name, geometry as a type tag plus parameters, material as a type
tag plus properties, vectors, shadow flags) — the shape the
subsystem's call sites construct their keyword dicts against.  The
repository's actual pydantic schema, which those constructor calls are
checked against, is embedded separately below as PydObjectDefinition /
pydObjectDefinition; the two disagree (the pydantic model requires an
id field and string-typed geometry / material), and several claims
turn on that disagreement. -/

structure ObjectDefinition where
  name : String
  geometry : Value
  material : Value
  position : Vec3 := ⟨0, 0, 0⟩
  rotation : Vec3 := ⟨0, 0, 0⟩
  scale : Vec3 := ⟨1, 1, 1⟩
  cast_shadows : Bool := false
  receive_shadows : Bool := false
  interactive : Bool := false
  instance_data : Option Value := none
  animations : List Value := []
  deriving DecidableEq

/-- The scene definition aggregate the generator populates. -/
structure SceneDef where
  objects : List ObjectDefinition := []
  lights : List Value := []
  camera : Option Value := none
  environment : Option Value := none
  post_processing : List Value := []
  animations : List Value := []
  deriving DecidableEq

/-- Read an optional Vector3-shaped entry of an object dict; a present
non-dict or non-numeric component models a validation failure. -/
def readVec (d : List (String × Value)) (k : String) (dflt : Vec3) :
    Option Vec3 :=
  match d.lookup k with
  | none => some dflt
  | some v => do
    let vd ← asDict v
    let x ← getNumD vd "x" dflt.x
    let y ← getNumD vd "y" dflt.y
    let z ← getNumD vd "z" dflt.z
    some ⟨x, y, z⟩

/-- Modelled from the spec (the refinement counterpart of
pydObjectDefinition below, which is the constructor the code actually
calls): build a spec-side object record from a keyword dict; none
models a raise on a malformed dict (missing name / geometry /
material, or non-numeric vector data). -/
def specObjectDefinition (d : List (String × Value)) :
    Option ObjectDefinition := do
  let nm ← match d.lookup "name" with | some (vStr s) => some s | _ => none
  let geom ← d.lookup "geometry"
  let mat ← d.lookup "material"
  let pos ← readVec d "position" ⟨0, 0, 0⟩
  let rot ← readVec d "rotation" ⟨0, 0, 0⟩
  let scl ← readVec d "scale" ⟨1, 1, 1⟩
  some { name := nm, geometry := geom, material := mat, position := pos,
         rotation := rot, scale := scl,
         cast_shadows := pyTruthy ((d.lookup "cast_shadows").getD (vBool false)),
         receive_shadows :=
           pyTruthy ((d.lookup "receive_shadows").getD (vBool false)),
         interactive := pyTruthy ((d.lookup "interactive").getD (vBool false)),
         instance_data := d.lookup "instance_data" }

/-! ## Pydantic models (models/visualization.py)

The generator and the template manager import ObjectDefinition and
SceneDefinition from models/visualization.py.  These pydantic (v1)
models are embedded with their declared fields and validation: a
missing required field or a value of the wrong type raises
ValidationError (modelled as an Except.error whose string labels the
failure), and unknown keyword arguments are silently ignored. -/

/-- models/visualization.py ObjectDefinition (lines 150-171): required
id, name, geometry and material — geometry and material are *string*
asset ids, not dicts; position / rotation / scale all default to
Vector3() = (0,0,0) via default_factory; the shadow flags are
camelCase (castShadow), so the snake_case keywords the generator
passes (cast_shadows) are ignored as unknown and the defaults stand.
The field named type in the source is objType here (field renaming
only). -/
structure PydObjectDefinition where
  id : String
  name : String
  objType : String := "Mesh"
  geometry : String
  material : String
  position : Vec3 := ⟨0, 0, 0⟩
  rotation : Vec3 := ⟨0, 0, 0⟩
  scale : Vec3 := ⟨0, 0, 0⟩
  castShadow : Bool := false
  receiveShadow : Bool := false
  visible : Bool := true
  interactive : Bool := false
  userData : List (String × Value) := []
  deriving DecidableEq

/-- pydantic v1 str field: strings pass, dicts / lists / booleans /
null fail.  (The numeric coercions of the v1 str validator are not
modelled: no call site in this subsystem passes a number for a str
field.) -/
def pydStr : Option Value → Option String
  | some (vStr s) => some s
  | _ => none

/-- Optional str field with default. -/
def pydStrD (v : Option Value) (dflt : String) : Option String :=
  match v with
  | none => some dflt
  | some (vStr s) => some s
  | some _ => none

/-- Optional bool field with default (the call sites pass booleans or
nothing; the extra coercions of the v1 bool validator never fire
here). -/
def pydBoolD (v : Option Value) (dflt : Bool) : Option Bool :=
  match v with
  | none => some dflt
  | some (vBool b) => some b
  | some _ => none

/-- Optional Vector3 field: absent means the default_factory origin;
a present value must be a dict (or Vector3 instance, carried as its
field dict) with numeric x / y / z entries defaulting to 0. -/
def pydVec3D (v : Option Value) : Option Vec3 :=
  match v with
  | none => some ⟨0, 0, 0⟩
  | some w => do
    let d ← asDict w
    let x ← getNumD d "x" 0
    let y ← getNumD d "y" 0
    let z ← getNumD d "z" 0
    some ⟨x, y, z⟩

/-- Optional dict field with an empty-dict default. -/
def pydDictD (v : Option Value) : Option (List (String × Value)) :=
  match v with
  | none => some []
  | some w => asDict w

/-- Lift one field validation; none raises ValidationError.  (pydantic
collects all field errors into one exception; the embedding
short-circuits at the first, which raises in exactly the same
states.) -/
def pydField {α : Type} : Option α → Except String α
  | some a => .ok a
  | none => .error "ValidationError"

/-- ObjectDefinition(**kwargs) against the pydantic schema: required
id / name / geometry / material, validated optional fields, unknown
keys ignored. -/
def pydObjectDefinition (kwargs : List (String × Value)) :
    Except String PydObjectDefinition := do
  let pid ← pydField (pydStr (kwargs.lookup "id"))
  let nm ← pydField (pydStr (kwargs.lookup "name"))
  let ty ← pydField (pydStrD (kwargs.lookup "type") "Mesh")
  let geom ← pydField (pydStr (kwargs.lookup "geometry"))
  let mat ← pydField (pydStr (kwargs.lookup "material"))
  let pos ← pydField (pydVec3D (kwargs.lookup "position"))
  let rot ← pydField (pydVec3D (kwargs.lookup "rotation"))
  let scl ← pydField (pydVec3D (kwargs.lookup "scale"))
  let cs ← pydField (pydBoolD (kwargs.lookup "castShadow") false)
  let rs ← pydField (pydBoolD (kwargs.lookup "receiveShadow") false)
  let vis ← pydField (pydBoolD (kwargs.lookup "visible") true)
  let ia ← pydField (pydBoolD (kwargs.lookup "interactive") false)
  let ud ← pydField (pydDictD (kwargs.lookup "userData"))
  .ok { id := pid, name := nm, objType := ty, geometry := geom,
        material := mat, position := pos, rotation := rot, scale := scl,
        castShadow := cs, receiveShadow := rs, visible := vis,
        interactive := ia, userData := ud }

/-- models/visualization.py SceneDefinition (lines 49-64).  Decisive
for the pattern claims: the model declares NO objects field, so every
scene_def.objects attribute access in the template manager raises
AttributeError. -/
structure PydSceneDef where
  scene_id : String
  player_id : String
  location_id : String
  camera : Value
  lights : List Value := []
  environment : Value := vDict []
  renderer_settings : List (String × Value) := []
  deriving DecidableEq

/-! ## Pattern application (TemplateManager.apply_pattern) -/

/-- How the transform parameter gates _apply_object_pattern: absent or
falsy means no transform step, a truthy dict is applied, a truthy
non-dict makes _apply_transform raise on the first object. -/
inductive TransformGate where
  | no : TransformGate
  | yes : List (String × Value) → TransformGate
  | bad : TransformGate

def transformGate (params : List (String × Value)) : TransformGate :=
  match params.lookup "transform" with
  | none => .no
  | some v =>
    if pyTruthy v then
      match v with
      | vDict t => .yes t
      | _ => .bad
    else .no

/-- The loop body of _apply_object_pattern on one object, run against
the pydantic SceneDefinition; the returned string labels the exception
the body raises.  Order of the source statements: a non-dict object
raises in _substitute_parameters (items on a non-dict); a truthy
non-dict transform or malformed vector data raises in
_apply_transform; then the append statement evaluates
scene_def.objects first — before ObjectDefinition(**obj_def) — and
raises AttributeError (the pydantic SceneDefinition declares no
objects field), so no iteration can complete. -/
def objectLoopErr (params : List (String × Value)) (obj : Value) : String :=
  match asDict obj with
  | none => "AttributeError: items"
  | some d =>
    match transformGate params with
    | .no => "AttributeError: objects"
    | .yes t =>
      match applyTransform (substDict params d) t with
      | some _ => "AttributeError: objects"
      | none => "TypeError: apply_transform"
    | .bad => "TypeError: apply_transform"

/-- TemplateManager._apply_object_pattern against the pydantic scene:
with nothing to iterate (no objects entry, or an empty / falsy one)
the loop body never runs and the method returns normally without ever
touching scene_def.objects; a non-empty iteration raises on its first
element (objectLoopErr names the statement), and iterating a
non-sequence raises TypeError.  The ok value is always the unchanged
scene: nothing in the method can mutate it. -/
def applyObjectPatternPyd (scene : PydSceneDef)
    (pattern params : List (String × Value)) :
    Except String PydSceneDef :=
  match pattern.lookup "objects" with
  | none => .ok scene
  | some (vList []) => .ok scene
  | some (vList (obj :: _)) => .error (objectLoopErr params obj)
  | some (vDict []) => .ok scene
  | some (vDict (_ :: _)) => .error "AttributeError: items"
  | some (vStr s) =>
    if s = "" then .ok scene else .error "AttributeError: items"
  | some _ => .error "TypeError: not iterable"

/-- TemplateManager._apply_animation_pattern against the pydantic
scene: with no targets to iterate the loop never runs; the first
target's search generator touches scene_def.objects and raises
AttributeError; iterating a non-sequence raises TypeError. -/
def applyAnimationPatternPyd (scene : PydSceneDef)
    (pattern params : List (String × Value)) :
    Except String PydSceneDef :=
  match params.lookup "targets" with
  | none => .ok scene
  | some (vList []) => .ok scene
  | some (vList (_ :: _)) => .error "AttributeError: objects"
  | some (vDict []) => .ok scene
  | some (vDict (_ :: _)) => .error "AttributeError: objects"
  | some (vStr s) =>
    if s = "" then .ok scene else .error "AttributeError: objects"
  | some _ => .error "TypeError: not iterable"

/-- TemplateManager.apply_pattern against the pydantic scene: unknown
(or falsy) pattern names log a warning and return; the two pattern
bodies run inside try/except, which absorbs every raise — and since no
body statement before its raise point mutates the scene, the absorbed
branch leaves the scene exactly as it was.  A missing or non-matching
type key falls through without effect. -/
def applyPatternPyd (store : List (String × List (String × Value)))
    (scene : PydSceneDef) (name : String)
    (params : List (String × Value)) : PydSceneDef :=
  match store.lookup name with
  | none => scene
  | some pattern =>
    match pattern.lookup "type" with
    | some (vStr s) =>
      if s = "object_group" then
        match applyObjectPatternPyd scene pattern params with
        | .ok s2 => s2
        | .error _ => scene
      else if s = "animation_sequence" then
        match applyAnimationPatternPyd scene pattern params with
        | .ok s2 => s2
        | .error _ => scene
      else scene
    | _ => scene

/-! ## Animation system (animation_system.py) -/

/-- The dataclass AnimationState. -/
structure AnimState where
  name : String
  duration : ℚ
  keyframes : List Value := []
  transitions : List (String × Value) := []
  conditions : Option Value := none
  deriving DecidableEq

mutual

inductive AnimationSeq where
  | mk : String → List AnimItem → Bool → ℚ → Option Value → AnimationSeq

inductive AnimItem where
  | state : AnimState → AnimItem
  | sub : AnimationSeq → AnimItem

end

/-- The dataclass AnimationChain. -/
structure AnimationChain where
  name : String
  stages : List Value
  parallel : Bool := false
  events : Option Value := none

/-- The mutable stores of AnimationSystem. -/
structure AnimationSys where
  sequences : List (String × AnimationSeq) := []
  chains : List (String × AnimationChain) := []

/-- Association-list update for arbitrary values (dict assignment). -/
def setKey {α : Type} (d : List (String × α)) (k : String) (v : α) :
    List (String × α) :=
  if (d.lookup k).isSome then
    d.map (fun kv => if kv.1 = k then (k, v) else kv)
  else
    d ++ [(k, v)]

/-- AnimationSystem.create_sequence : constructs and stores the
sequence with no validation of its states' transition tables. -/
def createSequence (sys : AnimationSys) (name : String)
    (animations : List AnimItem) (loop : Bool) (transition_time : ℚ)
    (events : Option Value) : AnimationSeq × AnimationSys :=
  let s := AnimationSeq.mk name animations loop transition_time events
  (s, { sys with sequences := setKey sys.sequences name s })

/-- AnimationSystem.create_chain : constructs and stores the chain with
no validation of its stages. -/
def createChain (sys : AnimationSys) (name : String) (stages : List Value)
    (parallel : Bool) (events : Option Value) :
    AnimationChain × AnimationSys :=
  let c : AnimationChain :=
    { name := name, stages := stages, parallel := parallel, events := events }
  (c, { sys with chains := setKey sys.chains name c })

/-- Target-state names referenced by a state's transition table. -/
def transitionTargets (s : AnimState) : List String :=
  s.transitions.filterMap (fun kv =>
    match kv.2 with
    | vDict d =>
      match d.lookup "target" with
      | some (vStr t) => some t
      | _ => none
    | _ => none)

/-- State names defined by a sequence's construction inputs (the
directly supplied states). -/
def definedStateNames : List AnimItem → List String
  | [] => []
  | .state s :: rest => s.name :: definedStateNames rest
  | .sub _ :: rest => definedStateNames rest

/-! ## Quality settings (visualization.py) -/

/-- The quality_presets table built in VisualizationService.__init__. -/
def qualityPresets : List (String × List (String × Value)) :=
  [("low",
    [("shadows", vBool false), ("ambient_occlusion", vBool false),
     ("bloom", vBool false), ("anti_aliasing", vBool false),
     ("texture_quality", vStr "low"), ("draw_distance", vNum 100)]),
   ("medium",
    [("shadows", vBool true), ("ambient_occlusion", vBool false),
     ("bloom", vBool true), ("anti_aliasing", vBool true),
     ("texture_quality", vStr "medium"), ("draw_distance", vNum 200)]),
   ("high",
    [("shadows", vBool true), ("ambient_occlusion", vBool true),
     ("bloom", vBool true), ("anti_aliasing", vBool true),
     ("texture_quality", vStr "high"), ("draw_distance", vNum 500)]),
   ("ultra",
    [("shadows", vBool true), ("ambient_occlusion", vBool true),
     ("bloom", vBool true), ("anti_aliasing", vBool true),
     ("texture_quality", vStr "ultra"), ("draw_distance", vNum 1000),
     ("ray_tracing", vBool true)])]

/-- VisualizationService._get_quality_settings : the special name all
returns the entire preset table, an unknown tier raises ValueError. -/
def getQualitySettings (quality_level : String) : Except String Value :=
  if quality_level = "all" then
    .ok (vDict (qualityPresets.map (fun p => (p.1, vDict p.2))))
  else
    match qualityPresets.lookup quality_level with
    | some s => .ok (vDict s)
    | none => .error ("Invalid quality level: " ++ quality_level)

/-! ## Wall and pillar layout (scene_generator.py _add_walls / _add_pillars)

scene_generator.py line 9 imports only sin, cos, pi and sqrt from
math; the name atan2 used at line 1388 is never bound anywhere in the
module, so the first loop iteration of _add_walls raises NameError
right after computing the segment length.  Both the wall and the
pillar ObjectDefinition calls also pass no id and dict-shaped
geometry / material where the pydantic schema requires strings, so
_add_pillars raises ValidationError constructing its first pillar
(and _add_walls would too, one statement after its NameError). -/

/-- Evaluating the unbound name atan2 raises NameError. -/
def atan2Unbound (dz dx : ℚ) : Except String ℚ :=
  .error "NameError: atan2 is not defined"

/-- The keyword arguments of the wall ObjectDefinition call at
scene_generator.py:1392-1409: no id, dict geometry / material, and the
Vector3 keyword values carried as their component dicts. -/
def wallKwargs (i : ℕ) (len angle cx cz : ℚ) : List (String × Value) :=
  [("name", vStr ("wall_" ++ toString i)),
   ("geometry", vDict
     [("type", vStr "BoxGeometry"),
      ("parameters", vList [vNum len, vNum 4, vNum (1 / 2)])]),
   ("material", vDict
     [("type", vStr "MeshStandardMaterial"), ("color", vNum 8421504),
      ("roughness", vNum (9 / 10)), ("metalness", vNum (1 / 10))]),
   ("position", vec3Dict ⟨cx, 2, cz⟩),
   ("rotation", vec3Dict ⟨0, angle, 0⟩),
   ("scale", vec3Dict ⟨1, 1, 1⟩),
   ("cast_shadows", vBool true),
   ("receive_shadows", vBool true)]

/-- The keyword arguments of the pillar ObjectDefinition call at
scene_generator.py:1426-1443. -/
def pillarKwargs (i : ℕ) (p : ℚ × ℚ) : List (String × Value) :=
  [("name", vStr ("pillar_" ++ toString i)),
   ("geometry", vDict
     [("type", vStr "CylinderGeometry"),
      ("parameters", vList [vNum (2 / 5), vNum (2 / 5), vNum 4, vNum 8])]),
   ("material", vDict
     [("type", vStr "MeshStandardMaterial"), ("color", vNum 8421504),
      ("roughness", vNum (7 / 10)), ("metalness", vNum (1 / 5))]),
   ("position", vec3Dict ⟨p.1, 2, p.2⟩),
   ("rotation", vec3Dict ⟨0, 0, 0⟩),
   ("scale", vec3Dict ⟨1, 1, 1⟩),
   ("cast_shadows", vBool true),
   ("receive_shadows", vBool true)]

/-- The loop of _add_walls over consecutive waypoint pairs.  rt models
the real square root (...)**0.5 applied to the squared distance.  On
success the list of walls that would be appended is returned; the
scene-append itself is not modelled because no iteration completes:
the atan2 evaluation raises before the ObjectDefinition call, which
would itself raise ValidationError. -/
def addWallsGo (rt : ℚ → ℚ) :
    ℕ → List ((ℚ × ℚ) × (ℚ × ℚ)) →
    Except String (List PydObjectDefinition)
  | _, [] => .ok []
  | i, (s, e) :: rest => do
    let len := rt (sqQ (e.1 - s.1) + sqQ (e.2 - s.2))
    let angle ← atan2Unbound (e.2 - s.2) (e.1 - s.1)
    let wall ← pydObjectDefinition
      (wallKwargs i len angle ((s.1 + e.1) / 2) ((s.2 + e.2) / 2))
    let rest2 ← addWallsGo rt (i + 1) rest
    .ok (wall :: rest2)

/-- SceneGenerator._add_walls: iterate i over range(0, len-1) pairing
positions[i] with positions[i+1] (the zip with the tail). -/
def addWalls (rt : ℚ → ℚ) (positions : List (ℚ × ℚ)) :
    Except String (List PydObjectDefinition) :=
  addWallsGo rt 0 (positions.zip positions.tail)

/-- The loop of _add_pillars: construct the pillar ObjectDefinition
(which raises ValidationError: no id, dict geometry / material), then
append. -/
def addPillarsGo :
    ℕ → List (ℚ × ℚ) → Except String (List PydObjectDefinition)
  | _, [] => .ok []
  | i, p :: rest => do
    let pillar ← pydObjectDefinition (pillarKwargs i p)
    let rest2 ← addPillarsGo (i + 1) rest
    .ok (pillar :: rest2)

/-- SceneGenerator._add_pillars: one iteration per waypoint. -/
def addPillars (positions : List (ℚ × ℚ)) :
    Except String (List PydObjectDefinition) :=
  addPillarsGo 0 positions

/-! ## Scene objects from template and location (_add_scene_objects) -/

/-- The base-object loop of _add_scene_objects, run under the
spec-side object constructor (the intended behavior; the pydantic
constructor rejects these dicts).  The claims that touch
_add_scene_objects depend only on the none branch of addSceneObjects
below, which returns before this loop runs; this definition serves to
state that the skipped template objects were buildable in the spec's
model.  none models a raising constructor. -/
def buildTemplateObjects : List Value → Option (List ObjectDefinition)
  | [] => some []
  | o :: os => do
    let d ← asDict o
    let od ← specObjectDefinition d
    let rest ← buildTemplateObjects os
    pure (od :: rest)

/-- SceneGenerator._add_scene_objects.  When the location provider
yields no data the method logs and returns before the template's base
objects are appended; otherwise base objects are added, then the
location layers and animations (passed here as collaborator
functions).  The outer Option models an uncaught exception. -/
def addSceneObjects (addLoc : SceneDef → Value → SceneDef)
    (addAnims : SceneDef → SceneTemplate → Value → SceneDef)
    (scene : SceneDef) (template : SceneTemplate)
    (locationData : Option Value) : Option SceneDef :=
  match locationData with
  | none => some scene
  | some ld => do
    let objs ← buildTemplateObjects (template.objects.getD [])
    let s1 := { scene with objects := scene.objects ++ objs }
    pure (addAnims (addLoc s1 ld) template ld)

/-! ## Poisson-disk moss scatter (_generate_moss_positions)

The source draws floats from the random module; the embedding receives
those draws as inputs.  random.uniform(a, b) is modelled as a + (b-a)*t
with the seed t clamped into [0, 1] (the library guarantees a result in
[a, b]); random.randint(0, n-1) as pick % n; and each annulus candidate
r*(cos theta, sin theta) as an arbitrary rational offset, a sound
over-approximation of the reachable candidates.  The comparison
sqrt(d) < radius of the source is replaced by the exact equivalent
d < radius^2.  Python int() is truncation toward zero. -/

/-- Minimum separation radius of the scatter (source constant 2.0). -/
def pdRadius : ℚ := 2

/-- The IEEE-754 double the source computes for radius / sqrt(2). -/
def gridCellSize : ℚ := 1592262918131443 / 1125899906842624

/-- Python int(): truncation toward zero. -/
def pyInt (q : ℚ) : ℤ := if 0 ≤ q then ⌊q⌋ else ⌈q⌉

/-- random.uniform(a, b) given a library draw t, clamped to its
guaranteed range. -/
def pyUniform (a b t : ℚ) : ℚ := a + (b - a) * (max 0 (min 1 t))

/-- Grid width int(width / grid_cell_size) + 1. -/
def gridW (w : ℚ) : ℤ := pyInt (w / gridCellSize) + 1

/-- Unclamped cell index of a world coordinate. -/
def rawCell (w x : ℚ) : ℤ := pyInt ((x + w / 2) / gridCellSize)

/-- get_grid_point: world coordinates to clamped grid coordinates. -/
def gridPoint (w l x z : ℚ) : ℤ × ℤ :=
  (min (max (rawCell w x) 0) (gridW w - 1),
   min (max (rawCell l z) 0) (gridW l - 1))

/-- cell_range = int(radius / grid_cell_size) + 1. -/
def cellRange : ℤ := pyInt (pdRadius / gridCellSize) + 1

/-- Integer interval [a, b] as a list. -/
def intRange (a b : ℤ) : List ℤ :=
  (List.range (b - a + 1).toNat).map (fun i : ℕ => a + (i : ℤ))

/-- One cell of the neighbor scan of is_valid_point: an out-of-grid or
empty cell passes; an occupied cell passes only when its registered
point is at squared distance at least the squared radius (the source
compares sqrt d < radius and rejects; the exact equivalent d < r*r is
negated here). -/
def scanCell (w l : ℚ) (grid : ℤ × ℤ → ℤ) (points : List (ℚ × ℚ))
    (x z : ℚ) (tg : ℤ × ℤ) : Bool :=
  if 0 ≤ tg.1 ∧ tg.1 < gridW w ∧ 0 ≤ tg.2 ∧ tg.2 < gridW l ∧
      grid tg ≠ -1 then
    let p := points.getD (grid tg).toNat (0, 0)
    decide (sqQ pdRadius ≤ sqQ (x - p.1) + sqQ (z - p.2))
  else true

/-- The neighbor-cell scan of is_valid_point: true when no registered
nearby point is strictly closer than the radius. -/
def scanOK (w l : ℚ) (grid : ℤ × ℤ → ℤ) (points : List (ℚ × ℚ))
    (x z : ℚ) : Bool :=
  let g := gridPoint w l x z
  (intRange (-cellRange) cellRange).all fun i =>
    (intRange (-cellRange) cellRange).all fun j =>
      scanCell w l grid points x z (g.1 + i, g.2 + j)

/-- is_valid_point: inside the rectangle and clear of all neighbors. -/
def isValidPoint (w l : ℚ) (grid : ℤ × ℤ → ℤ) (points : List (ℚ × ℚ))
    (x z : ℚ) : Bool :=
  if x < -(w / 2) ∨ x > w / 2 ∨ z < -(l / 2) ∨ z > l / 2 then false
  else scanOK w l grid points x z

/-- State of the sampling loop: accepted points, active list, and the
background grid (cell to point index, -1 when empty). -/
structure PDState where
  points : List (ℚ × ℚ)
  active : List (ℚ × ℚ)
  grid : ℤ × ℤ → ℤ

/-- The random draws consumed by one iteration of the while loop. -/
structure IterDraw where
  pick : ℕ
  cands : List (ℚ × ℚ)

/-- The k-attempt candidate loop around active point p: accept the
first in-bounds, well-separated candidate. -/
def firstValid (w l : ℚ) (grid : ℤ × ℤ → ℤ) (points : List (ℚ × ℚ))
    (p : ℚ × ℚ) : List (ℚ × ℚ) → Option (ℚ × ℚ)
  | [] => none
  | c :: cs =>
    if isValidPoint w l grid points (p.1 + c.1) (p.2 + c.2) then
      some (p.1 + c.1, p.2 + c.2)
    else firstValid w l grid points p cs

/-- Accept a candidate: append to points and active, register its cell
with the new index len(points) - 1. -/
def pdInsert (w l : ℚ) (st : PDState) (q : ℚ × ℚ) : PDState :=
  let g := gridPoint w l q.1 q.2
  { points := st.points ++ [q],
    active := st.active ++ [q],
    grid := fun c => if c = g then (st.points.length : ℤ) else st.grid c }

/-- One iteration of the while loop: pick an active point, try up to
k = 30 candidates, otherwise retire the active point. -/
def pdStep (w l : ℚ) (st : PDState) (d : IterDraw) : PDState :=
  let idx := d.pick % st.active.length
  let p := st.active.getD idx (0, 0)
  match firstValid w l st.grid st.points p (d.cands.take 30) with
  | some q => pdInsert w l st q
  | none => { st with active := st.active.eraseIdx idx }

/-- The while loop: run while the active list is non-empty and fewer
than 100 points were placed; the draw list is the fuel. -/
def pdLoop (w l : ℚ) : List IterDraw → PDState → PDState
  | [], st => st
  | d :: ds, st =>
    if st.active ≠ [] ∧ st.points.length < 100 then
      pdLoop w l ds (pdStep w l st d)
    else st

/-- Initial state: one uniform point, registered with the unclamped
cell indices exactly as in the source. -/
def pdInit (w l t1 t2 : ℚ) : PDState :=
  let x := pyUniform (-(w / 2)) (w / 2) t1
  let z := pyUniform (-(l / 2)) (l / 2) t2
  { points := [(x, z)], active := [(x, z)],
    grid := fun c => if c = (rawCell w x, rawCell l z) then 0 else -1 }

/-- SceneGenerator._generate_moss_positions : run the sampler and emit
position vectors with y = 0. -/
def generateMossPositions (w l t1 t2 : ℚ) (draws : List IterDraw) :
    List Vec3 :=
  ((pdLoop w l draws (pdInit w l t1 t2)).points).map
    (fun p => ⟨p.1, 0, p.2⟩)

/-! ## Generic association-list lemmas -/

theorem lookup_append_of_some {α : Type} (l1 l2 : List (String × α))
    (k : String) (v : α) (h : l1.lookup k = some v) :
    (l1 ++ l2).lookup k = some v := by
  induction l1 with
  | nil => simp [List.lookup] at h
  | cons e rest ih =>
    simp only [List.lookup, List.cons_append] at h ⊢
    cases hk : (k == e.1) with
    | true => simpa [hk] using h
    | false =>
      simp only [hk] at h ⊢
      exact ih h

theorem lookup_append_of_none {α : Type} (l1 l2 : List (String × α))
    (k : String) (h : l1.lookup k = none) :
    (l1 ++ l2).lookup k = l2.lookup k := by
  induction l1 with
  | nil => simp
  | cons e rest ih =>
    simp only [List.lookup, List.cons_append] at h ⊢
    cases hk : (k == e.1) with
    | true => simp [hk] at h
    | false =>
      simp only [hk] at h ⊢
      exact ih h

theorem lookup_map_entry_some (b : List (String × Value))
    (g : String × Value → Value) (k : String) (v : Value)
    (h : b.lookup k = some v) :
    (b.map (fun kv => (kv.1, g kv))).lookup k = some (g (k, v)) := by
  induction b with
  | nil => simp [List.lookup] at h
  | cons e rest ih =>
    simp only [List.lookup, List.map] at h ⊢
    cases hk : (k == e.1) with
    | true =>
      simp only [hk] at h ⊢
      obtain rfl : e.1 = k := (beq_iff_eq.mp hk).symm
      obtain rfl : v = e.2 := by simpa using h.symm
      rfl
    | false =>
      simp only [hk] at h ⊢
      exact ih h

theorem lookup_map_entry_none (b : List (String × Value))
    (g : String × Value → Value) (k : String)
    (h : b.lookup k = none) :
    (b.map (fun kv => (kv.1, g kv))).lookup k = none := by
  induction b with
  | nil => simp
  | cons e rest ih =>
    simp only [List.lookup, List.map] at h ⊢
    cases hk : (k == e.1) with
    | true => simp [hk] at h
    | false =>
      simp only [hk] at h ⊢
      exact ih h

theorem lookup_filter_keyed (c : List (String × Value))
    (p : String × Value → Bool) (k : String)
    (hp : ∀ v : Value, p (k, v) = true) :
    (c.filter p).lookup k = c.lookup k := by
  induction c with
  | nil => simp
  | cons e rest ih =>
    by_cases hk : k = e.1
    · subst hk
      have : p e = true := by
        obtain ⟨k1, v1⟩ := e
        exact hp v1
      simp [List.filter, this, List.lookup]
    · have hbeq : (k == e.1) = false := beq_eq_false_iff_ne.mpr hk
      cases hpe : p e with
      | true => simp [List.filter, hpe, List.lookup, hbeq, ih]
      | false => simp [List.filter, hpe, List.lookup, hbeq, ih]

/-- Lookup in a Python dict merge: the second dict wins. -/
theorem pyDictMerge_lookup (b c : List (String × Value)) (k : String) :
    (pyDictMerge b c).lookup k = ((c.lookup k).orElse (fun _ => b.lookup k)) := by
  unfold pyDictMerge
  cases hb : b.lookup k with
  | some v =>
    have h1 := lookup_map_entry_some b (fun kv => (c.lookup kv.1).getD kv.2) k v hb
    rw [lookup_append_of_some _ _ _ _ h1]
    cases hc : c.lookup k with
    | some cv => simp [hc]
    | none => simp [hc]
  | none =>
    have h1 := lookup_map_entry_none b (fun kv => (c.lookup kv.1).getD kv.2) k hb
    rw [lookup_append_of_none _ _ _ h1]
    rw [lookup_filter_keyed c _ k (fun v => by simp [hb])]
    cases hc : c.lookup k with
    | some cv => simp
    | none => simp

/-! ## dictSet lemmas -/

theorem lookup_dictSet_self (d : List (String × Value)) (k : String)
    (v : Value) : (dictSet d k v).lookup k = some v := by
  induction d with
  | nil => simp [dictSet, List.lookup]
  | cons e rest ih =>
    obtain ⟨k1, v1⟩ := e
    by_cases hek : k1 = k
    · simp [dictSet, if_pos hek, List.lookup]
    · simp [dictSet, if_neg hek, List.lookup,
        beq_eq_false_iff_ne.mpr (fun hh => hek hh.symm), ih]

theorem lookup_dictSet_ne (d : List (String × Value)) (k : String)
    (v : Value) (k' : String) (h : k' ≠ k) :
    (dictSet d k v).lookup k' = d.lookup k' := by
  induction d with
  | nil => simp [dictSet, List.lookup, beq_eq_false_iff_ne.mpr h]
  | cons e rest ih =>
    obtain ⟨k1, v1⟩ := e
    by_cases hek : k1 = k
    · subst hek
      simp [dictSet, List.lookup, beq_eq_false_iff_ne.mpr h]
    · simp only [dictSet, if_neg hek]
      cases hk : (k' == k1) with
      | true => simp [List.lookup, hk]
      | false => simp [List.lookup, hk, ih]

/-! ## Claim C8: quality-tier resolution -/

/-- C8 counterexample: the quality-level string all is not one of the
four defined tiers, yet _get_quality_settings returns the full preset
table for it instead of raising, so the claim that every non-tier
string raises is false. -/
theorem C8_counterexample :
    getQualitySettings "all" =
      Except.ok (vDict (qualityPresets.map (fun p => (p.1, vDict p.2)))) ∧
    "all" ≠ "low" ∧ "all" ≠ "medium" ∧ "all" ≠ "high" ∧ "all" ≠ "ultra" :=
  ⟨rfl, by decide, by decide, by decide, by decide⟩

/-- C8 (amended): every quality-level string other than all and the
four defined tiers makes _get_quality_settings raise ValueError; each
defined tier returns its own preset mapping, and all returns the whole
preset table. -/
theorem C8_quality_settings (q : String) :
    (q ≠ "all" → q ≠ "low" → q ≠ "medium" → q ≠ "high" → q ≠ "ultra" →
      getQualitySettings q = .error ("Invalid quality level: " ++ q)) ∧
    getQualitySettings "low" =
      .ok (vDict ((qualityPresets.lookup "low").getD [])) ∧
    getQualitySettings "medium" =
      .ok (vDict ((qualityPresets.lookup "medium").getD [])) ∧
    getQualitySettings "high" =
      .ok (vDict ((qualityPresets.lookup "high").getD [])) ∧
    getQualitySettings "ultra" =
      .ok (vDict ((qualityPresets.lookup "ultra").getD [])) ∧
    getQualitySettings "all" =
      .ok (vDict (qualityPresets.map (fun p => (p.1, vDict p.2)))) := by
  refine ⟨fun h0 h1 h2 h3 h4 => ?_, rfl, rfl, rfl, rfl, rfl⟩
  simp only [getQualitySettings, if_neg h0, qualityPresets, List.lookup,
    beq_eq_false_iff_ne.mpr h1, beq_eq_false_iff_ne.mpr h2,
    beq_eq_false_iff_ne.mpr h3, beq_eq_false_iff_ne.mpr h4]

/-- C8 witness: the undefined tier name extreme raises. -/
theorem C8_quality_settings_witness :
    getQualitySettings "extreme" =
      Except.error ("Invalid quality level: " ++ "extreme") :=
  (C8_quality_settings "extreme").1 (by decide) (by decide) (by decide)
    (by decide) (by decide)

/-! ## Claim C5: template inheritance cycles -/

/-- A self-referential template: its base_template is its own name. -/
def cycTemplate : SceneTemplate := { name := "a", base_template := some "a" }

/-- A template store containing only the self-referential template. -/
def cycStore : List (String × SceneTemplate) := [("a", cycTemplate)]

/-- C5: get_template has no cycle guard: on a self-referential
inheritance chain the recursion never returns, at every fuel level
(Python recurses until the interpreter's RecursionError, never
detecting the cycle or failing with a structured error). -/
theorem C5_cycle_diverges :
    ∀ fuel : ℕ, getTemplate fuel cycStore "a" = none := by
  intro fuel
  induction fuel with
  | zero => rfl
  | succ n ih =>
    simp only [getTemplate, cycStore, List.lookup]
    rw [show ("a" == "a") = true from rfl]
    simp only [cycTemplate]
    rw [show "a".isEmpty = false from rfl]
    simp only [Bool.false_eq_true, if_false]
    rw [show cycStore = [("a", cycTemplate)] from rfl] at ih
    simp only [cycTemplate] at ih
    rw [ih]

/-! ## Claim C9: animation construction accepts undefined targets -/

/-- An animation state whose only transition targets the state name
missing, which no construction input defines. -/
def undefinedTargetState : AnimState :=
  { name := "closed", duration := 0,
    transitions :=
      [("opening",
        vDict [("target", vStr "missing"), ("duration", vNum 1),
               ("easing", vStr "easeInOutQuad")])] }

/-- The empty animation system. -/
def emptyAnimationSys : AnimationSys := {}

/-- C9: create_sequence and create_chain perform no validation at all:
a sequence whose state's transition table references the undefined
target state missing (the construction inputs define only closed) is
accepted and stored, and likewise a chain referencing that sequence;
the fail-fast structural check the claim describes does not exist. -/
theorem C9_accepts_undefined_target :
    (createSequence emptyAnimationSys "door_seq"
        [.state undefinedTargetState] false 0 none).2.sequences.lookup
        "door_seq" =
      some (AnimationSeq.mk "door_seq" [.state undefinedTargetState]
        false 0 none) ∧
    (createChain emptyAnimationSys "door_chain"
        [vDict [("animations", vList [vStr "door_seq"])]] false
        none).2.chains.lookup "door_chain" =
      some { name := "door_chain",
             stages := [vDict [("animations", vList [vStr "door_seq"])]],
             parallel := false, events := none } ∧
    transitionTargets undefinedTargetState = ["missing"] ∧
    definedStateNames [.state undefinedTargetState] = ["closed"] :=
  ⟨rfl, rfl, rfl, rfl⟩

/-! ## Claim C6: parameter substitution -/

/-- A mapping whose value is a list holding a dollar-string element. -/
def c6Data : List (String × Value) := [("k", vList [vStr "$x"])]

/-- Parameters defining the placeholder name x. -/
def c6Params : List (String × Value) := [("x", vNum 5)]

/-- C6 counterexample: although the string element starts with the
sentinel and its parameter is present, substitution leaves it as the
literal string: dollar-strings that are direct list elements are NOT
substituted, so the claim's recursion-into-sequences clause is false. -/
theorem C6_counterexample :
    substDict c6Params c6Data = [("k", vList [vStr "$x"])] ∧
    substDict c6Params c6Data ≠ [("k", vList [vNum 5])] ∧
    startsWithDollar "$x" = true ∧
    c6Params.lookup (dropSentinel "$x") = some (vNum 5) :=
  ⟨rfl, by decide, by decide, by decide⟩

/-- C6 (amended): substitution maps every dict entry value pointwise:
a dollar-prefixed string value is replaced by its parameter when
present and kept literal otherwise, dict values are recursed into,
list values are recursed into only at their dict elements (all other
list elements, including dollar-strings, pass through unchanged), and
all other scalar values pass through unchanged. -/
theorem C6_substitution (params : List (String × Value)) :
    (∀ data : List (String × Value),
      substDict params data =
        data.map (fun kv => (kv.1, substVal params kv.2))) ∧
    (∀ s : String, startsWithDollar s = true →
      substVal params (vStr s) =
        (params.lookup (dropSentinel s)).getD (vStr s)) ∧
    (∀ s : String, startsWithDollar s = false →
      substVal params (vStr s) = vStr s) ∧
    (∀ d : List (String × Value),
      substVal params (vDict d) = vDict (substDict params d)) ∧
    (∀ l : List Value,
      substVal params (vList l) =
        vList (l.map (fun item =>
          match item with
          | vDict d => vDict (substDict params d)
          | other => other))) ∧
    substVal params vNull = vNull ∧
    (∀ b : Bool, substVal params (vBool b) = vBool b) ∧
    (∀ q : ℚ, substVal params (vNum q) = vNum q) := by
  refine ⟨?_, ?_, ?_, ?_, ?_, rfl, fun b => rfl, fun q => rfl⟩
  · intro data
    induction data with
    | nil => rfl
    | cons e rest ih => simp [substDict, ih]
  · intro s hs
    simp [substVal, hs]
  · intro s hs
    simp [substVal, hs]
  · intro d
    rfl
  · have aux : ∀ l : List Value,
        substList params l = l.map (fun item =>
          match item with
          | vDict d => vDict (substDict params d)
          | other => other) := by
      intro l
      induction l with
      | nil => rfl
      | cons item rest ih => cases item <;> simp [substList, ih]
    intro l
    simp [substVal, aux l]

/-- C6 witness: substitution on a concrete nested structure: the
dollar-string dict value is replaced, the dollar-string list element is
kept literal. -/
theorem C6_substitution_witness :
    substDict c6Params [("a", vStr "$x"), ("b", vList [vStr "$x"])] =
      [("a", vNum 5), ("b", vList [vStr "$x"])] ∧
    substVal c6Params (vStr "$x") = vNum 5 := by
  have h := C6_substitution c6Params
  refine ⟨?_, ?_⟩
  · have h2 := h.2.1 "$x" (by decide)
    rw [h.1 [("a", vStr "$x"), ("b", vList [vStr "$x"])]]
    simp only [List.map]
    rw [show substVal c6Params (vStr "$x") =
        (c6Params.lookup (dropSentinel "$x")).getD (vStr "$x") from h2]
    decide
  · exact (h.2.1 "$x" (by decide)).trans (by decide)

/-! ## Claim C3: scene objects with a null location -/

/-- A template declaring one well-formed base object. -/
def c3Template : SceneTemplate :=
  { name := "dungeon_room",
    objects := some
      [vDict [("name", vStr "crate"),
              ("geometry", vDict [("type", vStr "BoxGeometry")]),
              ("material", vDict [("type", vStr "MeshStandardMaterial")])]] }

/-- The empty scene definition. -/
def emptySceneDef : SceneDef := {}

/-- C3 counterexample: with a location id the provider resolves to
null, _add_scene_objects returns without raising, but it returns
BEFORE appending the template's base objects: the scene keeps zero
objects even though the template declares a buildable base object.
The claim that the template's base objects are still added (and that
the object list is non-empty) is false. -/
theorem C3_counterexample :
    addSceneObjects (fun s _ => s) (fun s _ _ => s) emptySceneDef
        c3Template none = some emptySceneDef ∧
    emptySceneDef.objects = [] ∧
    c3Template.objects ≠ some [] ∧ c3Template.objects ≠ none ∧
    (∃ od : ObjectDefinition,
      buildTemplateObjects (c3Template.objects.getD []) = some [od]) :=
  ⟨rfl, rfl, by decide, by decide,
    ⟨{ name := "crate", geometry := vDict [("type", vStr "BoxGeometry")],
       material := vDict [("type", vStr "MeshStandardMaterial")] }, rfl⟩⟩

/-- C3 (amended): when the location provider yields null,
_add_scene_objects does not raise and leaves the scene exactly as it
was: camera, lights and pattern-generated objects added earlier
survive, but the template's base objects are never appended. -/
theorem C3_null_location (addLoc : SceneDef → Value → SceneDef)
    (addAnims : SceneDef → SceneTemplate → Value → SceneDef)
    (scene : SceneDef) (template : SceneTemplate) :
    addSceneObjects addLoc addAnims scene template none = some scene := rfl

/-! ## Claim C4: template inheritance merge -/

/-- C4: when a child template names a base, get_template returns the
merged template: each content field (objects, lights, camera,
environment, animations, patterns) is the child's value when truthy
(non-empty) and otherwise the base's, and variables is the dict union
of base and child with child precedence on overlapping keys. -/
theorem C4_template_inheritance
    (ts : List (String × SceneTemplate)) (fuel : ℕ)
    (childName baseName : String) (child base : SceneTemplate)
    (hfuel : 2 ≤ fuel)
    (hc : ts.lookup childName = some child)
    (hcb : child.base_template = some baseName)
    (hbne : baseName.isEmpty = false)
    (hb : ts.lookup baseName = some base)
    (hbb : base.base_template = none) :
    getTemplate fuel ts childName = some (some (mergeTemplates base child)) ∧
    (mergeTemplates base child).objects =
      (if listTruthy child.objects then child.objects else base.objects) ∧
    (mergeTemplates base child).lights =
      (if listTruthy child.lights then child.lights else base.lights) ∧
    (mergeTemplates base child).camera =
      (if dictTruthy child.camera then child.camera else base.camera) ∧
    (mergeTemplates base child).environment =
      (if dictTruthy child.environment then child.environment
       else base.environment) ∧
    (mergeTemplates base child).animations =
      (if listTruthy child.animations then child.animations
       else base.animations) ∧
    (mergeTemplates base child).patterns =
      (if listTruthy child.patterns then child.patterns else base.patterns) ∧
    (mergeTemplates base child).vars =
      some (pyDictMerge (base.vars.getD []) (child.vars.getD [])) ∧
    (∀ k : String,
      (pyDictMerge (base.vars.getD []) (child.vars.getD [])).lookup k =
        ((child.vars.getD []).lookup k).orElse
          (fun _ => (base.vars.getD []).lookup k)) := by
  refine ⟨?_, rfl, rfl, rfl, rfl, rfl, rfl, rfl,
    fun k => pyDictMerge_lookup _ _ k⟩
  obtain ⟨m, rfl⟩ : ∃ m, fuel = m + 2 := ⟨fuel - 2, by omega⟩
  simp only [getTemplate, hc, hcb, hbne, Bool.false_eq_true, if_false, hb, hbb]

/-- A base template with objects, lights and variables. -/
def c4Base : SceneTemplate :=
  { name := "base", objects := some [vDict [("name", vStr "floor")]],
    lights := some [vDict [("type", vStr "AmbientLight")]],
    vars := some [("a", vNum 1), ("c", vNum 3)] }

/-- A child template: empty objects (falls back to the base), its own
lights, and overlapping variables. -/
def c4Child : SceneTemplate :=
  { name := "child", base_template := some "base",
    objects := some [],
    lights := some [vDict [("type", vStr "PointLight")]],
    vars := some [("a", vNum 2), ("b", vNum 9)] }

/-- A store holding the base and the child. -/
def c4Store : List (String × SceneTemplate) :=
  [("base", c4Base), ("child", c4Child)]

/-- C4 witness: concrete resolution of the child against the base. -/
theorem C4_template_inheritance_witness :
    getTemplate 2 c4Store "child" =
      some (some (mergeTemplates c4Base c4Child)) ∧
    (mergeTemplates c4Base c4Child).objects =
      some [vDict [("name", vStr "floor")]] ∧
    (mergeTemplates c4Base c4Child).lights =
      some [vDict [("type", vStr "PointLight")]] ∧
    (mergeTemplates c4Base c4Child).vars =
      some [("a", vNum 2), ("c", vNum 3), ("b", vNum 9)] := by
  have h := C4_template_inheritance c4Store 2 "child" "base" c4Child c4Base
    (by norm_num) (by decide) (by decide) (by decide) (by decide) (by decide)
  exact ⟨h.1, by decide, by decide, by decide⟩

/-! ## Claim C2: wall and pillar generation -/

/-- C2: the claimed emission never happens — the claim describes the
spec's intent and the code raises instead.  _add_walls raises
NameError on its first waypoint pair: the atan2 call at
scene_generator.py:1388 is unbound (line 9 imports only sin, cos, pi
and sqrt from math), so for every waypoint list with at least two
entries no wall object is appended.  _add_pillars raises
ValidationError constructing its first ObjectDefinition (the call
passes no id, and dict-shaped geometry / material where the pydantic
schema requires strings), so for every non-empty waypoint list no
pillar is appended.  With too few waypoints each loop body never runs
and nothing is emitted either.  The last two conjuncts evaluate both
failures at concrete waypoint lists. -/
theorem C2_walls_pillars :
    (∀ (rt : ℚ → ℚ) (p1 p2 : ℚ × ℚ) (rest : List (ℚ × ℚ)),
      addWalls rt (p1 :: p2 :: rest) =
        .error "NameError: atan2 is not defined") ∧
    (∀ rt : ℚ → ℚ, addWalls rt [] = .ok []) ∧
    (∀ (rt : ℚ → ℚ) (p1 : ℚ × ℚ), addWalls rt [p1] = .ok []) ∧
    (∀ (p : ℚ × ℚ) (rest : List (ℚ × ℚ)),
      addPillars (p :: rest) = .error "ValidationError") ∧
    addPillars [] = .ok [] ∧
    addWalls (fun q => q) [(0, 0), (10, 0)] =
      .error "NameError: atan2 is not defined" ∧
    addPillars [(5, 5), (15, 5)] = .error "ValidationError" :=
  ⟨fun _ _ _ _ => rfl, fun _ => rfl, fun _ _ => rfl,
   fun _ _ => rfl, rfl, rfl, rfl⟩

/-! ## Claim C10: apply_pattern absorbs failures -/

/-- The non-atomicity exhibit the claim describes: an object_group
pattern whose first object dict is fully well-formed — it even carries
the id and string geometry / material the pydantic ObjectDefinition
requires — and whose second entry is not a dict, so that building the
group would fail partway if objects were being appended. -/
def c10Pattern : List (String × Value) :=
  [("type", vStr "object_group"),
   ("objects", vList
     [vDict [("id", vStr "box1"), ("name", vStr "box1"),
             ("geometry", vStr "box_geometry"),
             ("material", vStr "stone_material")],
      vStr "oops"])]

/-- A pattern store holding the half-broken pattern. -/
def c10Store : List (String × List (String × Value)) :=
  [("broken", c10Pattern)]

/-- A concrete valid pydantic scene. -/
def c10Scene : PydSceneDef :=
  { scene_id := "s1", player_id := "p1", location_id := "loc1",
    camera := vDict [] }

/-- C10 counterexample: the claim's non-atomic partial append does not
occur, because no append ever occurs.  On the half-broken pattern —
whose first object the pydantic ObjectDefinition accepts, as the
second conjunct shows — the object loop raises AttributeError at its
very first scene_def.objects access (the pydantic SceneDefinition has
no objects field), apply_pattern absorbs the raise, and the scene
comes back exactly unchanged rather than extended by the first
object. -/
theorem C10_counterexample :
    applyPatternPyd c10Store c10Scene "broken" [] = c10Scene ∧
    (∃ o : PydObjectDefinition,
      pydObjectDefinition
        [("id", vStr "box1"), ("name", vStr "box1"),
         ("geometry", vStr "box_geometry"),
         ("material", vStr "stone_material")] = .ok o ∧
      o.id = "box1" ∧ o.name = "box1") ∧
    applyObjectPatternPyd c10Scene c10Pattern [] =
      .error "AttributeError: objects" :=
  ⟨rfl, ⟨_, rfl, rfl, rfl⟩, rfl⟩

/-- The ok result of the object-pattern body is always the unchanged
scene: every branch that completes does so without mutating. -/
theorem applyObjectPatternPyd_ok (scene : PydSceneDef)
    (pattern params : List (String × Value)) (s2 : PydSceneDef)
    (h : applyObjectPatternPyd scene pattern params = .ok s2) :
    s2 = scene := by
  unfold applyObjectPatternPyd at h
  repeat' split at h
  all_goals simp_all

/-- The ok result of the animation-pattern body is always the
unchanged scene. -/
theorem applyAnimationPatternPyd_ok (scene : PydSceneDef)
    (pattern params : List (String × Value)) (s2 : PydSceneDef)
    (h : applyAnimationPatternPyd scene pattern params = .ok s2) :
    s2 = scene := by
  unfold applyAnimationPatternPyd at h
  repeat' split at h
  all_goals simp_all

/-- apply_pattern is the identity on the pydantic scene: every branch
either skips or absorbs a raise that happened before any mutation. -/
theorem applyPatternPyd_id (store : List (String × List (String × Value)))
    (scene : PydSceneDef) (name : String)
    (params : List (String × Value)) :
    applyPatternPyd store scene name params = scene := by
  unfold applyPatternPyd
  repeat' split
  any_goals rfl
  all_goals
    rename_i s2 heq
    first
      | exact applyObjectPatternPyd_ok _ _ _ s2 heq
      | exact applyAnimationPatternPyd_ok _ _ _ s2 heq

/-- C10 (amended): apply_pattern returns normally and never propagates
an exception — unknown names warn and return, and the pattern bodies
run under a try/except that absorbs every raise.  But the application
is trivially atomic rather than non-atomic: nothing is ever appended,
because the pydantic SceneDefinition declares no objects field, so a
non-empty object iteration raises at its first element before any
mutation (second conjunct), and the scene is returned exactly
unchanged for every store, pattern name, scene and parameter
mapping (first conjunct). -/
theorem C10_apply_pattern (store : List (String × List (String × Value)))
    (scene : PydSceneDef) (name : String)
    (params : List (String × Value)) :
    applyPatternPyd store scene name params = scene ∧
    (∀ (pattern : List (String × Value)) (obj : Value)
      (rest : List Value),
      pattern.lookup "objects" = some (vList (obj :: rest)) →
      applyObjectPatternPyd scene pattern params =
        .error (objectLoopErr params obj)) := by
  refine ⟨applyPatternPyd_id store scene name params, ?_⟩
  intro pattern obj rest hobjs
  unfold applyObjectPatternPyd
  rw [hobjs]

/-- C10 witness: the general theorem at the concrete store: the
unknown name is a no-op and the half-broken pattern raises at its
first object. -/
theorem C10_apply_pattern_witness :
    applyPatternPyd c10Store c10Scene "missing_pattern" [] = c10Scene ∧
    applyPatternPyd c10Store c10Scene "broken" [] = c10Scene ∧
    applyObjectPatternPyd c10Scene c10Pattern [] =
      .error (objectLoopErr []
        (vDict [("id", vStr "box1"), ("name", vStr "box1"),
                ("geometry", vStr "box_geometry"),
                ("material", vStr "stone_material")])) := by
  have h1 := C10_apply_pattern c10Store c10Scene "missing_pattern" []
  have h2 := C10_apply_pattern c10Store c10Scene "broken" []
  exact ⟨h1.1, h2.1,
    h2.2 c10Pattern
      (vDict [("id", vStr "box1"), ("name", vStr "box1"),
              ("geometry", vStr "box_geometry"),
              ("material", vStr "stone_material")])
      [vStr "oops"] rfl⟩

/-! ## Claim C7: object-pattern transform composition -/

/-- An object_group pattern with the given object list. -/
def c7Pattern (objs : List Value) : List (String × Value) :=
  [("type", vStr "object_group"), ("objects", vList objs)]

theorem getNum_vec3 (v : Vec3) :
    getNum [("x", vNum v.x), ("y", vNum v.y), ("z", vNum v.z)] "x" =
        some v.x ∧
    getNum [("x", vNum v.x), ("y", vNum v.y), ("z", vNum v.z)] "y" =
        some v.y ∧
    getNum [("x", vNum v.x), ("y", vNum v.y), ("z", vNum v.z)] "z" =
        some v.z :=
  ⟨rfl, rfl, rfl⟩

theorem getNumD_vec3 (v : Vec3) (dx dy dz : ℚ) :
    getNumD [("x", vNum v.x), ("y", vNum v.y), ("z", vNum v.z)] "x" dx =
        some v.x ∧
    getNumD [("x", vNum v.x), ("y", vNum v.y), ("z", vNum v.z)] "y" dy =
        some v.y ∧
    getNumD [("x", vNum v.x), ("y", vNum v.y), ("z", vNum v.z)] "z" dz =
        some v.z :=
  ⟨rfl, rfl, rfl⟩

/-- Evaluation of one transform axis block on explicit vectors. -/
theorem transformStep_eval (op : ℚ → ℚ → ℚ) (curDflt tDflt : ℚ)
    (objDef : List (String × Value)) (key : String) (cur tvec : Vec3)
    (hcur : (objDef.lookup key).getD
        (vDict [("x", vNum curDflt), ("y", vNum curDflt),
                ("z", vNum curDflt)]) = vec3Dict cur) :
    transformStep op curDflt tDflt objDef key (vec3Dict tvec) =
      some (dictSet objDef key
        (vec3Dict ⟨op cur.x tvec.x, op cur.y tvec.y, op cur.z tvec.z⟩)) := by
  have e1 := (getNum_vec3 cur).1
  have e2 := (getNum_vec3 cur).2.1
  have e3 := (getNum_vec3 cur).2.2
  have f1 := (getNumD_vec3 tvec tDflt tDflt tDflt).1
  have f2 := (getNumD_vec3 tvec tDflt tDflt tDflt).2.1
  have f3 := (getNumD_vec3 tvec tDflt tDflt tDflt).2.2
  simp only [vec3Dict] at hcur ⊢
  simp only [transformStep, asDict, hcur, Option.bind_eq_bind,
    Option.some_bind, e1, e2, e3, f1, f2, f3]

/-- Applying a full translate/rotate/scale transform to an object dict
with explicit numeric vectors: translate and rotate add, scale
multiplies, and the three keys are updated in order. -/
theorem applyTransform_full (sd : List (String × Value))
    (pos rot scl tp tr ts : Vec3)
    (hp : sd.lookup "position" = some (vec3Dict pos))
    (hr : sd.lookup "rotation" = some (vec3Dict rot))
    (hs : sd.lookup "scale" = some (vec3Dict scl)) :
    applyTransform sd
        [("position", vec3Dict tp), ("rotation", vec3Dict tr),
         ("scale", vec3Dict ts)] =
      some (dictSet (dictSet (dictSet sd
        "position" (vec3Dict ⟨pos.x + tp.x, pos.y + tp.y, pos.z + tp.z⟩))
        "rotation" (vec3Dict ⟨rot.x + tr.x, rot.y + tr.y, rot.z + tr.z⟩))
        "scale" (vec3Dict ⟨scl.x * ts.x, scl.y * ts.y, scl.z * ts.z⟩)) := by
  have s1 : transformStep (fun a b => a + b) 0 0 sd "position"
      (vec3Dict tp) = some (dictSet sd "position"
        (vec3Dict ⟨pos.x + tp.x, pos.y + tp.y, pos.z + tp.z⟩)) :=
    transformStep_eval _ _ _ _ _ pos tp (by rw [hp]; rfl)
  have s2 : transformStep (fun a b => a + b) 0 0
      (dictSet sd "position"
        (vec3Dict ⟨pos.x + tp.x, pos.y + tp.y, pos.z + tp.z⟩)) "rotation"
      (vec3Dict tr) = some (dictSet (dictSet sd "position"
        (vec3Dict ⟨pos.x + tp.x, pos.y + tp.y, pos.z + tp.z⟩)) "rotation"
        (vec3Dict ⟨rot.x + tr.x, rot.y + tr.y, rot.z + tr.z⟩)) :=
    transformStep_eval _ _ _ _ _ rot tr
      (by rw [lookup_dictSet_ne _ _ _ _ (by decide), hr]; rfl)
  have s3 : transformStep (fun a b => a * b) 1 1
      (dictSet (dictSet sd "position"
        (vec3Dict ⟨pos.x + tp.x, pos.y + tp.y, pos.z + tp.z⟩)) "rotation"
        (vec3Dict ⟨rot.x + tr.x, rot.y + tr.y, rot.z + tr.z⟩)) "scale"
      (vec3Dict ts) = some (dictSet (dictSet (dictSet sd "position"
        (vec3Dict ⟨pos.x + tp.x, pos.y + tp.y, pos.z + tp.z⟩)) "rotation"
        (vec3Dict ⟨rot.x + tr.x, rot.y + tr.y, rot.z + tr.z⟩)) "scale"
        (vec3Dict ⟨scl.x * ts.x, scl.y * ts.y, scl.z * ts.z⟩)) :=
    transformStep_eval _ _ _ _ _ scl ts
      (by rw [lookup_dictSet_ne _ _ _ _ (by decide),
        lookup_dictSet_ne _ _ _ _ (by decide), hs]; rfl)
  simp only [applyTransform, List.lookup]
  rw [show ("position" == "position") = true from rfl,
    show ("rotation" == "position") = false from rfl,
    show ("rotation" == "rotation") = true from rfl,
    show ("scale" == "position") = false from rfl,
    show ("scale" == "rotation") = false from rfl,
    show ("scale" == "scale") = true from rfl]
  simp only [Option.bind_eq_bind, s1, Option.some_bind, s2, s3]

/-- A fully well-formed pattern object: it carries the id and
string-typed geometry / material the pydantic ObjectDefinition
requires, a substitutable name, and explicit numeric vectors. -/
def c7Obj : List (String × Value) :=
  [("id", vStr "rock1"),
   ("name", vStr "$nm"),
   ("geometry", vStr "rock_geometry"),
   ("material", vStr "rock_material"),
   ("position", vec3Dict ⟨1, 2, 3⟩),
   ("rotation", vec3Dict ⟨0, 0, 0⟩),
   ("scale", vec3Dict ⟨2, 2, 2⟩)]

/-- Parameters carrying the name and a full transform. -/
def c7ParamsT : List (String × Value) :=
  [("nm", vStr "rock"),
   ("transform",
    vDict [("position", vec3Dict ⟨10, 0, 0⟩),
           ("rotation", vec3Dict ⟨0, 1, 0⟩),
           ("scale", vec3Dict ⟨3, 1, 1⟩)])]

/-- A store holding the well-formed one-object pattern. -/
def c7Store : List (String × List (String × Value)) :=
  [("rock_group", c7Pattern [vDict c7Obj])]

/-- A concrete valid pydantic scene. -/
def c7Scene : PydSceneDef :=
  { scene_id := "s7", player_id := "p7", location_id := "loc7",
    camera := vDict [] }

/-- C7: the claimed emission does not occur — the claim (and the
spec's pattern-idempotence property) describe the intended transform
composition, but the code emits nothing.  Applying the rock_group
pattern, whose single object dict is fully well-formed (the third
conjunct: the pydantic ObjectDefinition accepts its substituted dict,
named rock at position (1,2,3)), with a full transform returns the
scene exactly unchanged (first conjunct): the object loop raises
AttributeError at scene_def.objects — the pydantic SceneDefinition
declares no objects field — and apply_pattern absorbs the raise
(second conjunct).  The fourth conjunct proves the composition the
claim attributes to the pattern — translate and rotate add, scale
multiplies — is exactly what _apply_transform computes on the object
dict, whose result the loop then drops. -/
theorem C7_pattern_transform :
    applyPatternPyd c7Store c7Scene "rock_group" c7ParamsT = c7Scene ∧
    applyObjectPatternPyd c7Scene (c7Pattern [vDict c7Obj]) c7ParamsT =
      .error "AttributeError: objects" ∧
    (∃ o : PydObjectDefinition,
      pydObjectDefinition (substDict c7ParamsT c7Obj) = .ok o ∧
      o.id = "rock1" ∧ o.name = "rock" ∧ o.geometry = "rock_geometry" ∧
      o.material = "rock_material" ∧ o.position = ⟨1, 2, 3⟩) ∧
    (∀ (sd : List (String × Value)) (pos rot scl tp tr ts : Vec3),
      sd.lookup "position" = some (vec3Dict pos) →
      sd.lookup "rotation" = some (vec3Dict rot) →
      sd.lookup "scale" = some (vec3Dict scl) →
      applyTransform sd
          [("position", vec3Dict tp), ("rotation", vec3Dict tr),
           ("scale", vec3Dict ts)] =
        some (dictSet (dictSet (dictSet sd
          "position" (vec3Dict ⟨pos.x + tp.x, pos.y + tp.y, pos.z + tp.z⟩))
          "rotation" (vec3Dict ⟨rot.x + tr.x, rot.y + tr.y, rot.z + tr.z⟩))
          "scale" (vec3Dict ⟨scl.x * ts.x, scl.y * ts.y, scl.z * ts.z⟩))) :=
  ⟨rfl, rfl, ⟨_, rfl, rfl, rfl, rfl, rfl, rfl⟩,
   fun sd pos rot scl tp tr ts hp hr hs =>
     applyTransform_full sd pos rot scl tp tr ts hp hr hs⟩

/-- C7 witness: the transform-composition conjunct of the theorem at a
concrete object dict: position (1,2,3) translated by (10,0,0),
rotation (0,0,0) rotated by (0,1,0), scale (2,2,2) scaled by
(3,1,1). -/
theorem C7_pattern_transform_witness :
    applyTransform
        [("position", vec3Dict ⟨1, 2, 3⟩), ("rotation", vec3Dict ⟨0, 0, 0⟩),
         ("scale", vec3Dict ⟨2, 2, 2⟩)]
        [("position", vec3Dict ⟨10, 0, 0⟩), ("rotation", vec3Dict ⟨0, 1, 0⟩),
         ("scale", vec3Dict ⟨3, 1, 1⟩)] =
      some (dictSet (dictSet (dictSet
        [("position", vec3Dict ⟨1, 2, 3⟩), ("rotation", vec3Dict ⟨0, 0, 0⟩),
         ("scale", vec3Dict ⟨2, 2, 2⟩)]
        "position" (vec3Dict ⟨1 + 10, 2 + 0, 3 + 0⟩))
        "rotation" (vec3Dict ⟨0 + 0, 0 + 1, 0 + 0⟩))
        "scale" (vec3Dict ⟨2 * 3, 2 * 1, 2 * 1⟩)) :=
  C7_pattern_transform.2.2.2
    [("position", vec3Dict ⟨1, 2, 3⟩), ("rotation", vec3Dict ⟨0, 0, 0⟩),
     ("scale", vec3Dict ⟨2, 2, 2⟩)]
    ⟨1, 2, 3⟩ ⟨0, 0, 0⟩ ⟨2, 2, 2⟩ ⟨10, 0, 0⟩ ⟨0, 1, 0⟩ ⟨3, 1, 1⟩
    rfl rfl rfl

/-! ## Claim C1: Poisson-disk scatter, supporting lemmas -/

theorem gcs_pos : 0 < gridCellSize := by norm_num [gridCellSize]

theorem gcs_ge_one : 1 ≤ gridCellSize := by norm_num [gridCellSize]

theorem gcs_sq_le_two : gridCellSize * gridCellSize ≤ 2 := by
  norm_num [gridCellSize]

theorem pyInt_nonneg (q : ℚ) (h : 0 ≤ q) : pyInt q = ⌊q⌋ := if_pos h

theorem cellRange_eq : cellRange = 2 := by
  have h0 : (0 : ℚ) ≤ pdRadius / gridCellSize := by
    norm_num [pdRadius, gridCellSize]
  have h1 : ⌊pdRadius / gridCellSize⌋ = 1 := by
    rw [Int.floor_eq_iff]
    constructor
    · norm_num [pdRadius, gridCellSize]
    · norm_num [pdRadius, gridCellSize]
  rw [cellRange, pyInt_nonneg _ h0, h1]
  decide

theorem mem_intRange {a b x : ℤ} (h1 : a ≤ x) (h2 : x ≤ b) :
    x ∈ intRange a b := by
  have hx : x = a + ((x - a).toNat : ℤ) := by omega
  have hm : (x - a).toNat ∈ List.range (b - a + 1).toNat :=
    List.mem_range.mpr (by omega)
  rw [intRange, hx]
  exact List.mem_map_of_mem (fun i : ℕ => a + (i : ℤ)) hm

/-- Membership in the sampling rectangle. -/
def inRect (w l : ℚ) (p : ℚ × ℚ) : Prop :=
  -(w / 2) ≤ p.1 ∧ p.1 ≤ w / 2 ∧ -(l / 2) ≤ p.2 ∧ p.2 ≤ l / 2

/-- Squared distance at least the squared radius. -/
def farApart (p q : ℚ × ℚ) : Prop :=
  sqQ pdRadius ≤ sqQ (p.1 - q.1) + sqQ (p.2 - q.2)

theorem farApart_symm {p q : ℚ × ℚ} (h : farApart p q) : farApart q p := by
  unfold farApart sqQ at h ⊢
  nlinarith [h]

theorem pyUniform_mem (a b t : ℚ) (hab : a ≤ b) :
    a ≤ pyUniform a b t ∧ pyUniform a b t ≤ b := by
  unfold pyUniform
  have h0 : 0 ≤ max 0 (min 1 t) := le_max_left 0 _
  have h1 : max 0 (min 1 t) ≤ 1 := max_le (by norm_num) (min_le_left 1 t)
  constructor <;> nlinarith

theorem rawCell_bounds (w x : ℚ) (hw : 0 ≤ w) (h1 : -(w / 2) ≤ x)
    (h2 : x ≤ w / 2) : 0 ≤ rawCell w x ∧ rawCell w x ≤ gridW w - 1 := by
  have hc := gcs_pos
  have harg : 0 ≤ (x + w / 2) / gridCellSize :=
    div_nonneg (by linarith) hc.le
  constructor
  · rw [rawCell, pyInt_nonneg _ harg]
    exact Int.floor_nonneg.mpr harg
  · rw [rawCell, pyInt_nonneg _ harg, gridW,
      pyInt_nonneg _ (div_nonneg hw hc.le)]
    have hle : (x + w / 2) / gridCellSize ≤ w / gridCellSize := by
      gcongr
      linarith
    have := Int.floor_le_floor hle
    omega

theorem gridPoint_eq_raw (w l x z : ℚ) (hw : 0 ≤ w) (hl : 0 ≤ l)
    (hb : inRect w l (x, z)) :
    gridPoint w l x z = (rawCell w x, rawCell l z) := by
  obtain ⟨h1, h2, h3, h4⟩ := hb
  obtain ⟨a1, a2⟩ := rawCell_bounds w x hw h1 h2
  obtain ⟨b1, b2⟩ := rawCell_bounds l z hl h3 h4
  simp only [gridPoint, Prod.mk.injEq]
  constructor <;> omega

theorem rawCell_close (w x1 x2 : ℚ) (h1 : -(w / 2) ≤ x1)
    (h2 : -(w / 2) ≤ x2) (hd : |x1 - x2| < 2) :
    |rawCell w x1 - rawCell w x2| ≤ 2 := by
  have hc := gcs_pos
  have hc1 := gcs_ge_one
  set u := (x1 + w / 2) / gridCellSize with hu
  set v := (x2 + w / 2) / gridCellSize with hv
  have hu0 : 0 ≤ u := div_nonneg (by linarith) hc.le
  have hv0 : 0 ≤ v := div_nonneg (by linarith) hc.le
  have hsub : u - v = (x1 - x2) / gridCellSize := by
    rw [hu, hv, div_sub_div_same]
    ring_nf
  have huv : |u - v| ≤ |x1 - x2| := by
    rw [hsub, abs_div, abs_of_pos hc]
    calc |x1 - x2| / gridCellSize ≤ |x1 - x2| / 1 := by gcongr
      _ = |x1 - x2| := by norm_num
  have habs : |u - v| < 2 := lt_of_le_of_lt huv hd
  obtain ⟨hl1, hl2⟩ := abs_lt.mp habs
  rw [rawCell, rawCell, pyInt_nonneg _ hu0, pyInt_nonneg _ hv0]
  have f1 : ⌊u⌋ ≤ ⌊v⌋ + 2 := by
    have h2' : u ≤ v + ((2 : ℤ) : ℚ) := by push_cast; linarith
    calc ⌊u⌋ ≤ ⌊v + ((2 : ℤ) : ℚ)⌋ := Int.floor_le_floor h2'
      _ = ⌊v⌋ + 2 := Int.floor_add_int v 2
  have f2 : ⌊v⌋ ≤ ⌊u⌋ + 2 := by
    have h2' : v ≤ u + ((2 : ℤ) : ℚ) := by push_cast; linarith
    calc ⌊v⌋ ≤ ⌊u + ((2 : ℤ) : ℚ)⌋ := Int.floor_le_floor h2'
      _ = ⌊u⌋ + 2 := Int.floor_add_int u 2
  rw [abs_le]
  omega

theorem rawCell_same (w x1 x2 : ℚ) (h1 : -(w / 2) ≤ x1)
    (h2 : -(w / 2) ≤ x2) (he : rawCell w x1 = rawCell w x2) :
    |x1 - x2| < gridCellSize := by
  have hc := gcs_pos
  set u := (x1 + w / 2) / gridCellSize with hu
  set v := (x2 + w / 2) / gridCellSize with hv
  have hu0 : 0 ≤ u := div_nonneg (by linarith) hc.le
  have hv0 : 0 ≤ v := div_nonneg (by linarith) hc.le
  rw [rawCell, pyInt_nonneg _ hu0, rawCell, pyInt_nonneg _ hv0] at he
  have hu1 : (⌊u⌋ : ℚ) ≤ u := Int.floor_le u
  have hu2 : u < ⌊u⌋ + 1 := Int.lt_floor_add_one u
  have hv1 : (⌊v⌋ : ℚ) ≤ v := Int.floor_le v
  have hv2 : v < ⌊v⌋ + 1 := Int.lt_floor_add_one v
  have hee : ((⌊u⌋ : ℚ)) = ((⌊v⌋ : ℚ)) := by rw [he]
  have habs : |u - v| < 1 := by
    rw [abs_lt]
    constructor <;> linarith
  have hx : x1 - x2 = (u - v) * gridCellSize := by
    rw [hu, hv, div_sub_div_same, div_mul_cancel₀ _ hc.ne.symm]
    ring_nf
  calc |x1 - x2| = |u - v| * gridCellSize := by
        rw [hx, abs_mul, abs_of_pos hc]
    _ < 1 * gridCellSize := mul_lt_mul_of_pos_right habs hc
    _ = gridCellSize := one_mul _

/-- The loop invariant of the sampler: at most 100 points, all in the
rectangle, pairwise separated, every point registered in the grid at
its own (clamped) cell, and every occupied grid cell holding the index
of a point that lives in that cell. -/
structure GoodState (w l : ℚ) (st : PDState) : Prop where
  count : st.points.length ≤ 100
  bounds : ∀ p ∈ st.points, inRect w l p
  sep : st.points.Pairwise farApart
  reg : ∀ i : ℕ, ∀ hi : i < st.points.length,
    st.grid (gridPoint w l (st.points.get ⟨i, hi⟩).1
      (st.points.get ⟨i, hi⟩).2) = i
  validEntries : ∀ c : ℤ × ℤ, st.grid c = -1 ∨
    ∃ i : ℕ, ∃ hi : i < st.points.length, st.grid c = (i : ℤ) ∧
      gridPoint w l (st.points.get ⟨i, hi⟩).1
        (st.points.get ⟨i, hi⟩).2 = c

/-- A candidate that passes is_valid_point lies in the rectangle and is
separated from every already accepted point. -/
theorem isValid_far (w l : ℚ) (hw : 0 ≤ w) (hl : 0 ≤ l) (st : PDState)
    (hG : GoodState w l st) (x z : ℚ)
    (hv : isValidPoint w l st.grid st.points x z = true) :
    inRect w l (x, z) ∧ ∀ p ∈ st.points, farApart (x, z) p := by
  rw [isValidPoint] at hv
  by_cases hb : x < -(w / 2) ∨ x > w / 2 ∨ z < -(l / 2) ∨ z > l / 2
  · rw [if_pos hb] at hv
    exact absurd hv (by simp)
  rw [if_neg hb] at hv
  push_neg at hb
  obtain ⟨b1, b2, b3, b4⟩ := hb
  refine ⟨⟨b1, b2, b3, b4⟩, ?_⟩
  intro p hp
  by_contra hfar
  rw [farApart] at hfar
  push_neg at hfar
  have hfar4 : (x - p.1) * (x - p.1) + (z - p.2) * (z - p.2) < 4 := by
    have : sqQ pdRadius = 4 := by norm_num [sqQ, pdRadius]
    rw [this] at hfar
    simpa [sqQ] using hfar
  have hd1 : |x - p.1| < 2 := by
    by_contra hc2
    push_neg at hc2
    have h4 : (4 : ℚ) ≤ |x - p.1| * |x - p.1| := by nlinarith [abs_nonneg (x - p.1)]
    rw [abs_mul_abs_self] at h4
    nlinarith [mul_self_nonneg (z - p.2)]
  have hd2 : |z - p.2| < 2 := by
    by_contra hc2
    push_neg at hc2
    have h4 : (4 : ℚ) ≤ |z - p.2| * |z - p.2| := by nlinarith [abs_nonneg (z - p.2)]
    rw [abs_mul_abs_self] at h4
    nlinarith [mul_self_nonneg (x - p.1)]
  obtain ⟨⟨i, hi⟩, hpi⟩ := List.mem_iff_get.mp hp
  have hpb := hG.bounds p hp
  have hcd1 : |rawCell w p.1 - rawCell w x| ≤ 2 :=
    rawCell_close w p.1 x hpb.1 b1 (by rw [abs_sub_comm]; exact hd1)
  have hcd2 : |rawCell l p.2 - rawCell l z| ≤ 2 :=
    rawCell_close l p.2 z hpb.2.2.1 b3 (by rw [abs_sub_comm]; exact hd2)
  obtain ⟨d1l, d1r⟩ := abs_le.mp hcd1
  obtain ⟨d2l, d2r⟩ := abs_le.mp hcd2
  have hreg := hG.reg i hi
  rw [hpi] at hreg
  have hpcell : gridPoint w l p.1 p.2 = (rawCell w p.1, rawCell l p.2) :=
    gridPoint_eq_raw w l p.1 p.2 hw hl hpb
  rw [hpcell] at hreg
  have hgxz : gridPoint w l x z = (rawCell w x, rawCell l z) :=
    gridPoint_eq_raw w l x z hw hl ⟨b1, b2, b3, b4⟩
  have hwp := rawCell_bounds w p.1 hw hpb.1 hpb.2.1
  have hlp := rawCell_bounds l p.2 hl hpb.2.2.1 hpb.2.2.2
  simp only [scanOK, hgxz, List.all_eq_true] at hv
  have hmi : rawCell w p.1 - rawCell w x ∈ intRange (-cellRange) cellRange :=
    mem_intRange (by rw [cellRange_eq]; omega) (by rw [cellRange_eq]; omega)
  have hmj : rawCell l p.2 - rawCell l z ∈ intRange (-cellRange) cellRange :=
    mem_intRange (by rw [cellRange_eq]; omega) (by rw [cellRange_eq]; omega)
  have h2 := hv _ hmi _ hmj
  have e1 : rawCell w x + (rawCell w p.1 - rawCell w x) = rawCell w p.1 := by
    ring
  have e2 : rawCell l z + (rawCell l p.2 - rawCell l z) = rawCell l p.2 := by
    ring
  rw [e1, e2] at h2
  rw [scanCell] at h2
  rw [if_pos] at h2
  · have hgetd : st.points.getD
        ((st.grid (rawCell w p.1, rawCell l p.2)).toNat) (0, 0) = p := by
      rw [hreg, Int.toNat_natCast, List.getD_eq_getElem?_getD,
        List.getElem?_eq_getElem hi, Option.getD_some]
      exact (List.get_eq_getElem st.points ⟨i, hi⟩).symm.trans hpi
    rw [hgetd] at h2
    have hge := of_decide_eq_true h2
    rw [show sqQ pdRadius = 4 from by norm_num [sqQ, pdRadius]] at hge
    simp only [sqQ] at hge
    linarith
  · refine ⟨hwp.1, by omega, hlp.1, by omega, ?_⟩
    rw [hreg]
    omega

/-- Two rectangle points sharing a grid cell are strictly closer than
the radius (cell side at most radius over root two). -/
theorem same_cell_conflict (w l : ℚ) (hw : 0 ≤ w) (hl : 0 ≤ l)
    (p q : ℚ × ℚ) (hp : inRect w l p) (hq : inRect w l q)
    (he : gridPoint w l p.1 p.2 = gridPoint w l q.1 q.2) :
    sqQ (p.1 - q.1) + sqQ (p.2 - q.2) < sqQ pdRadius := by
  rw [gridPoint_eq_raw w l p.1 p.2 hw hl hp,
    gridPoint_eq_raw w l q.1 q.2 hw hl hq, Prod.mk.injEq] at he
  have d1 : |p.1 - q.1| < gridCellSize :=
    rawCell_same w p.1 q.1 hp.1 hq.1 he.1
  have d2 : |p.2 - q.2| < gridCellSize :=
    rawCell_same l p.2 q.2 hp.2.2.1 hq.2.2.1 he.2
  have e1 : sqQ (p.1 - q.1) < gridCellSize * gridCellSize := by
    have h := mul_lt_mul'' d1 d1 (abs_nonneg _) (abs_nonneg _)
    rw [abs_mul_abs_self] at h
    exact h
  have e2 : sqQ (p.2 - q.2) < gridCellSize * gridCellSize := by
    have h := mul_lt_mul'' d2 d2 (abs_nonneg _) (abs_nonneg _)
    rw [abs_mul_abs_self] at h
    exact h
  have h4 : sqQ pdRadius = 4 := by norm_num [sqQ, pdRadius]
  rw [h4]
  have := gcs_sq_le_two
  unfold sqQ at e1 e2 ⊢
  linarith

theorem get_append_left_pd (lst : List (ℚ × ℚ)) (q : ℚ × ℚ) (i : ℕ)
    (hi : i < lst.length) (h : i < (lst ++ [q]).length) :
    (lst ++ [q]).get ⟨i, h⟩ = lst.get ⟨i, hi⟩ := by
  rw [List.get_eq_getElem, List.get_eq_getElem]
  exact List.getElem_append_left hi

theorem get_append_last_pd (lst : List (ℚ × ℚ)) (q : ℚ × ℚ)
    (h : lst.length < (lst ++ [q]).length) :
    (lst ++ [q]).get ⟨lst.length, h⟩ = q := by
  rw [List.get_eq_getElem]
  exact List.getElem_concat_length lst q _ rfl _

/-- Accepting a valid candidate preserves the loop invariant. -/
theorem pdInsert_good (w l : ℚ) (hw : 0 ≤ w) (hl : 0 ≤ l) (st : PDState)
    (hG : GoodState w l st) (hlen : st.points.length < 100) (x z : ℚ)
    (hv : isValidPoint w l st.grid st.points x z = true) :
    GoodState w l (pdInsert w l st (x, z)) := by
  obtain ⟨hrect, hfar⟩ := isValid_far w l hw hl st hG x z hv
  have hcellne : ∀ i (hi : i < st.points.length),
      gridPoint w l (st.points.get ⟨i, hi⟩).1 (st.points.get ⟨i, hi⟩).2 ≠
        gridPoint w l x z := by
    intro i hi he
    have hp := List.get_mem st.points i hi
    have hfa := hfar _ hp
    have hconf := same_cell_conflict w l hw hl (st.points.get ⟨i, hi⟩)
      (x, z) (hG.bounds _ hp) hrect (by rw [he])
    unfold farApart at hfa
    unfold sqQ at hfa hconf
    nlinarith [hfa, hconf]
  constructor
  · simp only [pdInsert, List.length_append, List.length_singleton]
    omega
  · intro p hp
    simp only [pdInsert, List.mem_append, List.mem_singleton] at hp
    rcases hp with hp | hp
    · exact hG.bounds p hp
    · rw [hp]; exact hrect
  · simp only [pdInsert]
    rw [List.pairwise_append]
    refine ⟨hG.sep, List.pairwise_singleton _ _, ?_⟩
    intro a ha b hb
    simp only [List.mem_singleton] at hb
    rw [hb]
    exact farApart_symm (hfar a ha)
  · intro i hi
    simp only [pdInsert, List.length_append, List.length_singleton] at hi
    by_cases hlt : i < st.points.length
    · have hget : ((st.points ++ [(x, z)]).get
          ⟨i, by simp only [List.length_append, List.length_singleton]; omega⟩) =
          st.points.get ⟨i, hlt⟩ := get_append_left_pd _ _ _ hlt _
      simp only [pdInsert]
      rw [hget, if_neg (hcellne i hlt)]
      exact hG.reg i hlt
    · have hieq : i = st.points.length := by omega
      subst hieq
      have hget : ((st.points ++ [(x, z)]).get
          ⟨st.points.length,
            by simp only [List.length_append, List.length_singleton]; omega⟩) =
          (x, z) := get_append_last_pd _ _ _
      simp only [pdInsert]
      rw [hget, if_pos rfl]
  · intro c
    by_cases hc : c = gridPoint w l x z
    · right
      refine ⟨st.points.length,
        by simp only [pdInsert, List.length_append, List.length_singleton]; omega,
        ?_, ?_⟩
      · simp only [pdInsert]
        rw [hc, if_pos rfl]
      · simp only [pdInsert]
        have hget : ((st.points ++ [(x, z)]).get
            ⟨st.points.length,
              by simp only [List.length_append, List.length_singleton]; omega⟩) =
            (x, z) := get_append_last_pd _ _ _
        rw [hget, hc]
    · rcases hG.validEntries c with h | ⟨i, hi, h1, h2⟩
      · left
        simp only [pdInsert]
        rw [if_neg hc]
        exact h
      · right
        refine ⟨i,
          by simp only [pdInsert, List.length_append, List.length_singleton]; omega,
          ?_, ?_⟩
        · simp only [pdInsert]
          rw [if_neg hc]
          exact h1
        · simp only [pdInsert]
          have hget : ((st.points ++ [(x, z)]).get
              ⟨i, by simp only [List.length_append, List.length_singleton]; omega⟩) =
              st.points.get ⟨i, hi⟩ := get_append_left_pd _ _ _ hi _
          rw [hget]
          exact h2

/-- A candidate accepted by the attempt loop passed is_valid_point. -/
theorem firstValid_valid (w l : ℚ) (grid : ℤ × ℤ → ℤ)
    (points : List (ℚ × ℚ)) (p : ℚ × ℚ) :
    ∀ (cs : List (ℚ × ℚ)) (q : ℚ × ℚ),
      firstValid w l grid points p cs = some q →
      isValidPoint w l grid points q.1 q.2 = true := by
  intro cs
  induction cs with
  | nil => intro q h; simp [firstValid] at h
  | cons c rest ih =>
    intro q h
    rw [firstValid] at h
    by_cases hvp :
        isValidPoint w l grid points (p.1 + c.1) (p.2 + c.2) = true
    · rw [if_pos hvp] at h
      cases h
      exact hvp
    · rw [if_neg hvp] at h
      exact ih q h

/-- One loop iteration preserves the invariant while under budget. -/
theorem pdStep_good (w l : ℚ) (hw : 0 ≤ w) (hl : 0 ≤ l) (st : PDState)
    (hG : GoodState w l st) (hlen : st.points.length < 100)
    (d : IterDraw) : GoodState w l (pdStep w l st d) := by
  rw [pdStep]
  cases hf : firstValid w l st.grid st.points
      (st.active.getD (d.pick % st.active.length) (0, 0))
      (d.cands.take 30) with
  | none =>
    exact ⟨hG.count, hG.bounds, hG.sep, hG.reg, hG.validEntries⟩
  | some q =>
    have hv := firstValid_valid w l st.grid st.points _ _ _ hf
    show GoodState w l (pdInsert w l st q)
    have heq : pdInsert w l st q = pdInsert w l st (q.1, q.2) := by
      rw [Prod.mk.eta]
    rw [heq]
    exact pdInsert_good w l hw hl st hG hlen q.1 q.2 hv

/-- The whole loop preserves the invariant. -/
theorem pdLoop_good (w l : ℚ) (hw : 0 ≤ w) (hl : 0 ≤ l) :
    ∀ (draws : List IterDraw) (st : PDState), GoodState w l st →
      GoodState w l (pdLoop w l draws st) := by
  intro draws
  induction draws with
  | nil => intro st h; exact h
  | cons d ds ih =>
    intro st h
    rw [pdLoop]
    by_cases hg : st.active ≠ [] ∧ st.points.length < 100
    · rw [if_pos hg]
      exact ih _ (pdStep_good w l hw hl st h hg.2 d)
    · rw [if_neg hg]
      exact h

/-- The initial one-point state satisfies the invariant. -/
theorem pdInit_good (w l t1 t2 : ℚ) (hw : 0 ≤ w) (hl : 0 ≤ l) :
    GoodState w l (pdInit w l t1 t2) := by
  have hx := pyUniform_mem (-(w / 2)) (w / 2) t1 (by linarith)
  have hz := pyUniform_mem (-(l / 2)) (l / 2) t2 (by linarith)
  set x := pyUniform (-(w / 2)) (w / 2) t1 with hxdef
  set z := pyUniform (-(l / 2)) (l / 2) t2 with hzdef
  have hrect : inRect w l (x, z) := ⟨hx.1, hx.2, hz.1, hz.2⟩
  have hraw : gridPoint w l x z = (rawCell w x, rawCell l z) :=
    gridPoint_eq_raw w l x z hw hl hrect
  constructor
  · simp [pdInit]
  · intro p hp
    simp only [pdInit, List.mem_singleton] at hp
    rw [hp]
    exact hrect
  · simp [pdInit]
  · intro i hi
    simp only [pdInit, List.length_singleton] at hi
    have hieq : i = 0 := by omega
    subst hieq
    simp only [pdInit, List.get]
    rw [hraw, if_pos rfl]
    simp
  · intro c
    by_cases hc : c = (rawCell w x, rawCell l z)
    · right
      refine ⟨0, by simp [pdInit], ?_, ?_⟩
      · simp only [pdInit]
        rw [if_pos hc]
        simp
      · simp only [pdInit, List.get]
        rw [hraw, hc]
    · left
      simp only [pdInit]
      rw [if_neg hc]

/-- C1: for every rectangle size with nonnegative width and length and
every sequence of random draws, the Poisson-disk scatter of
_generate_moss_positions returns at most 100 points, all inside
[-width/2, width/2] x [-length/2, length/2] (at ground height 0), and
every pair of returned points is at Euclidean distance at least the
radius: stated exactly on squared distances over ℚ, and equivalently
with the real square root. -/
theorem C1_poisson_disk (w l t1 t2 : ℚ) (draws : List IterDraw)
    (hw : 0 ≤ w) (hl : 0 ≤ l) :
    (generateMossPositions w l t1 t2 draws).length ≤ 100 ∧
    (∀ p ∈ generateMossPositions w l t1 t2 draws,
      p.y = 0 ∧ -(w / 2) ≤ p.x ∧ p.x ≤ w / 2 ∧ -(l / 2) ≤ p.z ∧
        p.z ≤ l / 2) ∧
    (generateMossPositions w l t1 t2 draws).Pairwise
      (fun p q => sqQ pdRadius ≤ sqQ (p.x - q.x) + sqQ (p.z - q.z)) ∧
    (generateMossPositions w l t1 t2 draws).Pairwise
      (fun p q => ((pdRadius : ℚ) : ℝ) ≤
        Real.sqrt (((p.x - q.x : ℚ) : ℝ) ^ 2 + ((p.z - q.z : ℚ) : ℝ) ^ 2)) := by
  have hG := pdLoop_good w l hw hl draws _ (pdInit_good w l t1 t2 hw hl)
  refine ⟨?_, ?_, ?_, ?_⟩
  · simp only [generateMossPositions, List.length_map]
    exact hG.count
  · intro p hp
    simp only [generateMossPositions, List.mem_map] at hp
    obtain ⟨q, hq, rfl⟩ := hp
    have hb := hG.bounds q hq
    exact ⟨rfl, hb.1, hb.2.1, hb.2.2.1, hb.2.2.2⟩
  · simp only [generateMossPositions]
    rw [List.pairwise_map]
    exact hG.sep.imp (fun hab => hab)
  · simp only [generateMossPositions]
    rw [List.pairwise_map]
    refine hG.sep.imp ?_
    intro a b hab
    have hab' : (4 : ℚ) ≤ (a.1 - b.1) * (a.1 - b.1) +
        (a.2 - b.2) * (a.2 - b.2) := by
      have h4 : sqQ pdRadius = 4 := by norm_num [sqQ, pdRadius]
      rw [farApart, h4] at hab
      simpa [sqQ] using hab
    have habR : (4 : ℝ) ≤ ((a.1 - b.1 : ℚ) : ℝ) * ((a.1 - b.1 : ℚ) : ℝ) +
        ((a.2 - b.2 : ℚ) : ℝ) * ((a.2 - b.2 : ℚ) : ℝ) := by
      exact_mod_cast hab'
    have h2 : ((pdRadius : ℚ) : ℝ) = 2 := by norm_num [pdRadius]
    rw [h2, show ((a, b).1.1 - (a, b).2.1 : ℚ) = a.1 - b.1 from rfl]
    rw [Real.le_sqrt (by norm_num)]
    · nlinarith [habR]
    · positivity

/-- C1 witness: a 4 x 4 rectangle with centered seed draws and no loop
draws yields the single origin point, within bounds and budget. -/
theorem C1_poisson_disk_witness :
    generateMossPositions 4 4 (1 / 2) (1 / 2) [] = [⟨0, 0, 0⟩] ∧
    (generateMossPositions 4 4 (1 / 2) (1 / 2) []).length ≤ 100 := by
  have h := C1_poisson_disk 4 4 (1 / 2) (1 / 2) [] (by norm_num)
    (by norm_num)
  refine ⟨?_, h.1⟩
  simp only [generateMossPositions, pdLoop, pdInit, pyUniform]
  norm_num
